import Mathlib

/-!
Verification development for the pygltfio repository: a shallow embedding of
`src/gltfio/glb.py`, `src/gltfio/parser.py` and `src/gltfio/types.py` in Lean,
followed by theorems settling the frozen claims about the code.

Modelling conventions:
* Python byte strings are `List Nat` (each entry one byte).
* The generic JSON tree produced by the external `json.loads` collaborator is
  the inductive `JValue`; `json.loads` itself is out of scope for the
  repository (external collaborator) and is passed in as a function.
* Python exceptions are the inductive `PyError`; an operation that can raise
  returns `Except PyError α`.  Exception message strings are elided: only the
  exception class matters for control flow (`except GlbError` in
  `parse_path`).
* Python list indexing and slicing (including negative indices and slice
  clamping) are modelled exactly by `pyNorm`, `pyGetIdx` and `pySlice`.
* `struct.unpack('i', ...)` is modelled as little-endian signed 32-bit,
  matching the host byte order the code runs on.
-/

/-- Exception classes raised by the embedded code.  `glbError` is the class
caught by `except GlbError` in `parse_path`; every other constructor is a
distinct Python exception class that `except GlbError` does not catch.
`fuelExhausted` is a model artifact of the bounded GLB chunk loop and never
corresponds to a Python behaviour claimed by a theorem. -/
inductive PyError where
  | glbError
  | gltfError
  | ioError
  | notImplementedError
  | keyError
  | indexError
  | typeError
  | valueError
  | runtimeError
  | attributeError
  | exceptionError
  | fuelExhausted
deriving DecidableEq

/-- Generic JSON tree, the output type of the external `json.loads`
collaborator.  Python's json module keeps integers and floats distinct, so the
model does too; object fields keep insertion order like Python dicts. -/
inductive JValue where
  | null
  | bool (b : Bool)
  | intNum (n : Int)
  | floatNum (q : Rat)
  | str (s : String)
  | arr (items : List JValue)
  | obj (fields : List (String × JValue))

namespace JValue

/-- Python truthiness of a JSON value (`if v:`). -/
def truthy : JValue → Bool
  | .null => false
  | .bool b => b
  | .intNum n => n != 0
  | .floatNum q => q != 0
  | .str s => s != ""
  | .arr l => !l.isEmpty
  | .obj l => !l.isEmpty

/-- First binding of a key in an object, `none` when absent or when the value
is not an object (dict keys are unique under `json.loads`). -/
def getKey? (v : JValue) (k : String) : Option JValue :=
  match v with
  | .obj fields => (fields.find? (fun p => p.1 == k)).map (fun p => p.2)
  | _ => none

/-- Python `d[k]` on a dict: `KeyError` when the key is absent, `TypeError`
when string-subscripting a non-dict value. -/
def dictGet (v : JValue) (k : String) : Except PyError JValue :=
  match v with
  | .obj _ =>
    match v.getKey? k with
    | some x => .ok x
    | none => .error .keyError
  | _ => .error .typeError

/-- Python `d.get(k, dflt)`: `AttributeError` when the receiver is not a
dict. -/
def dictGetD (v : JValue) (k : String) (dflt : JValue) : Except PyError JValue :=
  match v with
  | .obj _ =>
    match v.getKey? k with
    | some x => .ok x
    | none => .ok dflt
  | _ => .error .attributeError

/-- Python `d.get(k)` (default `None` means `Option.none` here):
`AttributeError` when the receiver is not a dict. -/
def dictGetOpt (v : JValue) (k : String) : Except PyError (Option JValue) :=
  match v with
  | .obj _ => .ok (v.getKey? k)
  | _ => .error .attributeError

/-- A JSON value used as a Python list index or dict key: ints and bools are
usable, floats only when integral (Python `5126.0 == 5126` hashes equal). -/
def asIndex? : JValue → Option Int
  | .intNum n => some n
  | .bool b => some (if b then 1 else 0)
  | .floatNum q => if q.den = 1 then some q.num else none
  | _ => none

end JValue

/-- Normalize a Python sequence index of a sequence of length `len`: negative
indices count from the end; out-of-range gives `none` (an `IndexError`). -/
def pyNorm (len : Nat) (i : Int) : Option Nat :=
  if i < 0 then
    if 0 ≤ i + len then some (i + len).toNat else none
  else
    if i < len then some i.toNat else none

/-- Python `l[i]` on a list: negative wrap-around, `IndexError` out of
range. -/
def pyGetIdx {α : Type} (l : List α) (i : Int) : Except PyError α :=
  match pyNorm l.length i with
  | some n =>
    match l.get? n with
    | some a => .ok a
    | none => .error .indexError
  | none => .error .indexError

/-- Like `pyGetIdx` but returning the normalized position instead of the
element; used where the model stores an arena index in place of the object
reference that the Python code stores. -/
def pyNormIdx {α : Type} (l : List α) (i : Int) : Except PyError Nat :=
  match pyNorm l.length i with
  | some n => if n < l.length then .ok n else .error .indexError
  | none => .error .indexError

/-- Python subscripting a list with an arbitrary JSON value: non-integer
subscripts raise `TypeError`. -/
def pyListGet {α : Type} (l : List α) (v : JValue) : Except PyError α :=
  match v.asIndex? with
  | some i => pyGetIdx l i
  | none => .error .typeError

/-- As `pyListGet` but returning the normalized arena position. -/
def pyListGetNorm {α : Type} (l : List α) (v : JValue) : Except PyError Nat :=
  match v.asIndex? with
  | some i => pyNormIdx l i
  | none => .error .typeError

/-- Normalize one bound of a Python slice `l[a:b]`. -/
def pySliceBound (len : Nat) (i : Int) : Nat :=
  let j := if i < 0 then i + len else i
  if j < 0 then 0 else if (len : Int) < j then len else j.toNat

/-- Python slice `l[a:b]` (step 1): clamped, never raising. -/
def pySlice {α : Type} (l : List α) (a b : Int) : List α :=
  (l.take (pySliceBound l.length b)).drop (pySliceBound l.length a)

/-- State of `BytesReader` from `glb.py`: the input bytes and the current
position (a Python int, so possibly negative after a negative-size read). -/
structure BytesReader where
  data : List Nat
  pos : Int
deriving DecidableEq

/-- `BytesReader.read`: bounds check `self.pos + size > len(self.data)` raises
`IOError`, otherwise slice `self.data[self.pos:self.pos+size]` and advance. -/
def BytesReader.read (r : BytesReader) (size : Int) :
    Except PyError (List Nat × BytesReader) :=
  if (r.data.length : Int) < r.pos + size then .error .ioError
  else .ok (pySlice r.data r.pos (r.pos + size), ⟨r.data, r.pos + size⟩)

/-- Little-endian signed 32-bit decode of 4 bytes, the meaning of
`struct.unpack('i', data)[0]` on the host. -/
def leInt32 (bs : List Nat) : Int :=
  match bs with
  | [b0, b1, b2, b3] =>
    let u : Nat := b0 + 256 * b1 + 65536 * b2 + 16777216 * b3
    if u < 2 ^ 31 then (u : Int) else (u : Int) - 2 ^ 32
  | _ => 0

/-- `BytesReader.read_int`: read 4 bytes and unpack as signed
little-endian. -/
def BytesReader.read_int (r : BytesReader) : Except PyError (Int × BytesReader) := do
  let (bs, r) ← r.read 4
  return (leInt32 bs, r)

/-- The chunk loop of `parse_glb`: `while r.pos < length` read an 8-byte chunk
header and the payload, storing JSON/BIN chunks and raising
`NotImplementedError` on any other tag.  The loop is bounded by fuel; running
out yields the model-only `fuelExhausted` error (the Python loop can fail to
terminate on adversarial negative chunk lengths). -/
def glbChunkLoop (length : Int) :
    Nat → BytesReader → Option (List Nat) → Option (List Nat) →
    Except PyError (Option (List Nat) × Option (List Nat))
  | 0, _, _, _ => .error .fuelExhausted
  | fuel + 1, r, jsonChunk, binChunk =>
    if r.pos < length then do
      let (chunkLength, r) ← r.read_int
      let (chunkType, r) ← r.read_int
      let (chunkData, r) ← r.read chunkLength
      if chunkType = 0x4E4F534A then
        glbChunkLoop length fuel r (some chunkData) binChunk
      else if chunkType = 0x004E4942 then
        glbChunkLoop length fuel r jsonChunk (some chunkData)
      else
        .error .notImplementedError
    else
      .ok (jsonChunk, binChunk)

/-- `parse_glb` from `glb.py`: check magic and version (raising `GlbError`),
read the declared total length, then run the chunk loop. -/
def parse_glb (data : List Nat) :
    Except PyError (Option (List Nat) × Option (List Nat)) := do
  let r : BytesReader := ⟨data, 0⟩
  let (magic, r) ← r.read_int
  if magic ≠ 0x46546C67 then .error .glbError
  else do
    let (version, r) ← r.read_int
    if version ≠ 2 then .error .glbError
    else do
      let (length, r) ← r.read_int
      glbChunkLoop length (data.length + 2) r none none

/-!
Embedding of `types.py`: the typed-view abstraction `GltfAccessorSlice`, the
component-type tables, and the scene-graph record types.  Loosely-typed
Python attributes that store a JSON value verbatim (names, factors, the raw
`matrix` list, ...) are kept as `JValue` in the model.  Where the Python code
stores a direct object reference produced by indexing into an already-built
arena (`self.nodes[child_index]`, `self.skins[skin_index]`, ...), the model
stores the normalized arena position, which identifies the same object.
-/

/-- Structural worker for `chunkScalars`: the fuel is an upper bound on the
number of chunks (each step consumes at least one byte when `0 < n`). -/
def chunkScalarsAux (n : Nat) : Nat → List Nat → List (List Nat)
  | 0, _ => []
  | _, [] => []
  | fuel + 1, x :: xs => ((x :: xs).take n) :: chunkScalarsAux n fuel ((x :: xs).drop n)

/-- Split a byte list into consecutive scalars of `n` bytes each; this is the
shape of the memoryview produced by `memoryview(bin).cast(scalar_format)`. -/
def chunkScalars (n : Nat) (l : List Nat) : List (List Nat) :=
  if n = 0 then [] else chunkScalarsAux n l.length l

/-- `memoryview(bytes).cast(fmt)` with scalar size `n`: a `ValueError` unless
the byte length is a multiple of the scalar size. -/
def memviewCast (n : Nat) (l : List Nat) : Except PyError (List (List Nat)) :=
  if l.length % n = 0 then .ok (chunkScalars n l) else .error .valueError

/-- `GltfAccessorSlice` from `types.py`: a memoryview already cast to the
scalar format (each entry is one scalar of `itemsize` bytes) plus the number
of scalar components per element.  `itemsize` is the `memoryview.itemsize`
property of the stored view. -/
structure GltfAccessorSlice where
  scalar_view : List (List Nat)
  itemsize : Nat
  element_count : Nat := 1

namespace GltfAccessorSlice

/-- `get_stride`: `self.scalar_view.itemsize * self.element_count`. -/
def get_stride (s : GltfAccessorSlice) : Nat :=
  s.itemsize * s.element_count

/-- `get_count`: `len(self.scalar_view) // self.element_count`. -/
def get_count (s : GltfAccessorSlice) : Nat :=
  s.scalar_view.length / s.element_count

/-- `get_item(i)`: `self.scalar_view[begin:begin+self.element_count]` with
`begin = i * self.element_count`, a Python slice (clamped, never raising). -/
def get_item (s : GltfAccessorSlice) (i : Int) : List (List Nat) :=
  pySlice s.scalar_view (i * s.element_count) (i * s.element_count + s.element_count)

end GltfAccessorSlice

/-- The ctypes scalar types appearing in `COMPONENT_TYPE_TO_ELEMENT_TYPE`. -/
inductive CElemType where
  | cChar
  | cByte
  | cShort
  | cUShort
  | cUInt
  | cFloat
deriving DecidableEq

/-- `ctypes.sizeof` of each scalar type. -/
def CElemType.size : CElemType → Nat
  | .cChar => 1
  | .cByte => 1
  | .cShort => 2
  | .cUShort => 2
  | .cUInt => 4
  | .cFloat => 4

/-- `COMPONENT_TYPE_TO_ELEMENT_TYPE`: the six known numeric component-type
codes; any other code is a `KeyError`. -/
def componentTypeToElementType (code : Int) : Option CElemType :=
  if code = 5120 then some .cChar
  else if code = 5121 then some .cByte
  else if code = 5122 then some .cShort
  else if code = 5123 then some .cUShort
  else if code = 5125 then some .cUInt
  else if code = 5126 then some .cFloat
  else none

/-- `TYPE_TO_ELEMENT_COUNT`: the seven known element-shape tags. -/
def typeToElementCount (tag : String) : Option Nat :=
  if tag = "SCALAR" then some 1
  else if tag = "VEC2" then some 2
  else if tag = "VEC3" then some 3
  else if tag = "VEC4" then some 4
  else if tag = "MAT2" then some 4
  else if tag = "MAT3" then some 9
  else if tag = "MAT4" then some 16
  else none

/-- Dict lookup with a JSON value as key, as in
`COMPONENT_TYPE_TO_ELEMENT_TYPE[gltf_accessor['componentType']]`: int, bool
and integral-float keys hash like the int; unhashable keys raise `TypeError`,
missing keys `KeyError`. -/
def intKeyLookup {α : Type} (table : Int → Option α) (v : JValue) :
    Except PyError α :=
  match v with
  | .arr _ => .error .typeError
  | .obj _ => .error .typeError
  | _ =>
    match v.asIndex? with
    | some n =>
      match table n with
      | some a => .ok a
      | none => .error .keyError
    | none => .error .keyError

/-- `get_accessor_type` from `types.py`: look up the component-type code and
the shape tag of an accessor in the two fixed tables. -/
def get_accessor_type (gltf_accessor : JValue) :
    Except PyError (CElemType × Nat) := do
  let code ← gltf_accessor.dictGet "componentType"
  let et ← intKeyLookup componentTypeToElementType code
  let tag ← gltf_accessor.dictGet "type"
  match tag with
  | .str s =>
    match typeToElementCount s with
    | some n => return (et, n)
    | none => .error .keyError
  | .arr _ => .error .typeError
  | .obj _ => .error .typeError
  | _ => .error .keyError

/-- The `MimeType` enum. -/
inductive MimeType where
  | Jpg
  | Png
  | Ktx2
deriving DecidableEq

/-- Enum construction `MimeType(value)`: `ValueError` when the value is not
one of the three member values. -/
def MimeType.ofValue (v : JValue) : Except PyError MimeType :=
  match v with
  | .str s =>
    if s = "image/jpeg" then .ok .Jpg
    else if s = "image/png" then .ok .Png
    else if s = "image/ktx2" then .ok .Ktx2
    else .error .valueError
  | _ => .error .valueError

/-- Does `cs` begin with the pattern `ps`?  Character-list implementation of
Python `str.startswith`, kept first-order so the kernel can evaluate it. -/
def charsBeginWith : List Char → List Char → Bool
  | [], _ => true
  | _ :: _, [] => false
  | p :: ps, c :: cs => p == c && charsBeginWith ps cs

/-- Python `s.startswith(p)` over the characters of the strings. -/
def strStartsWith (s p : String) : Bool :=
  charsBeginWith p.toList s.toList

/-- Python `s.lower()` over the characters of the string. -/
def strLower (s : String) : String :=
  String.mk (s.toList.map Char.toLower)

/-- `pathlib.Path(name).suffix`: on the final path component, the substring
from the last dot, provided the dot is neither the first nor the last
character. -/
def pathSuffix (name : String) : String :=
  let cs := (name.toList.reverse.takeWhile (fun c => c ≠ '/')).reverse
  let rest := cs.reverse.takeWhile (fun c => c ≠ '.')
  if rest.length = cs.length then ""
  else
    let i := cs.length - rest.length - 1
    if i = 0 ∨ rest.length = 0 then "" else String.mk (cs.drop i)

/-- `MimeType.from_name`: infer the MIME kind from the lower-cased filename
suffix, raising `GltfError` for an unknown suffix. -/
def MimeType.from_name (name : String) : Except PyError MimeType :=
  let s := strLower (pathSuffix name)
  if s = ".png" then .ok .Png
  else if s = ".jpg" then .ok .Jpg
  else if s = ".ktx2" then .ok .Ktx2
  else .error .gltfError

/-- A value stored in a `Vec3`/`Vec4` component: either a JSON value taken
verbatim, or the `float('inf')` / `-float('inf')` sentinels used for
undeclared position bounds. -/
inductive PyVal where
  | ofJ (v : JValue)
  | posInf
  | negInf

/-- `Vec3` from `types.py` (components stored verbatim). -/
structure Vec3 where
  x : PyVal
  y : PyVal
  z : PyVal

/-- `Vec4` from `types.py`. -/
structure Vec4 where
  x : PyVal
  y : PyVal
  z : PyVal
  w : PyVal

/-- `Vec3(*v)` applied to a JSON value: exactly three positional arguments or
a `TypeError`. -/
def vec3Of (v : JValue) : Except PyError Vec3 :=
  match v with
  | .arr [a, b, c] => .ok ⟨.ofJ a, .ofJ b, .ofJ c⟩
  | _ => .error .typeError

/-- `Vec4(*v)` applied to a JSON value. -/
def vec4Of (v : JValue) : Except PyError Vec4 :=
  match v with
  | .arr [a, b, c, d] => .ok ⟨.ofJ a, .ofJ b, .ofJ c, .ofJ d⟩
  | _ => .error .typeError

/-- `RGB` from `types.py` (components stored verbatim). -/
structure RGB where
  r : JValue
  g : JValue
  b : JValue

/-- `RGBA` from `types.py`. -/
structure RGBA where
  r : JValue
  g : JValue
  b : JValue
  a : JValue

/-- `RGB(*v)` applied to a JSON value. -/
def rgbOf (v : JValue) : Except PyError RGB :=
  match v with
  | .arr [a, b, c] => .ok ⟨a, b, c⟩
  | _ => .error .typeError

/-- `RGBA(*v)` applied to a JSON value. -/
def rgbaOf (v : JValue) : Except PyError RGBA :=
  match v with
  | .arr [a, b, c, d] => .ok ⟨a, b, c, d⟩
  | _ => .error .typeError

/-- The `AlphaMode` enum. -/
inductive AlphaMode where
  | OPAQUE
  | MASK
  | BLEND
deriving DecidableEq

/-- Enum construction `AlphaMode(v)`. -/
def AlphaMode.ofValue (v : JValue) : Except PyError AlphaMode :=
  match v with
  | .str s =>
    if s = "OPAQUE" then .ok .OPAQUE
    else if s = "MASK" then .ok .MASK
    else if s = "BLEND" then .ok .BLEND
    else .error .valueError
  | _ => .error .valueError

/-- `GltfImage` from `types.py`. -/
structure GltfImage where
  index : Int
  name : JValue
  data : List Nat
  mime : MimeType
  extensions : Option JValue
  extras : Option JValue

/-- `GltfTexture` from `types.py`. -/
structure GltfTexture where
  index : Int
  name : JValue
  image : GltfImage
  extensions : Option JValue
  extras : Option JValue

/-- `GltfMaterial` from `types.py`; scalar factors keep the JSON value (or
Python literal) stored by the parser. -/
structure GltfMaterial where
  index : Int
  name : JValue
  base_color_texture : Option GltfTexture
  base_color_factor : RGBA
  metallic_roughness_texture : Option GltfTexture
  metallic_factor : JValue
  roughness_factor : JValue
  emissive_texture : Option GltfTexture
  emissive_factor : RGB
  normal_texture : Option GltfTexture
  occlusion_texture : Option GltfTexture
  alpha_mode : AlphaMode
  alpha_cutoff : JValue
  double_sided : JValue
  extensions : Option JValue
  extras : Option JValue

/-- `GltfMaterial.default()`: the well-known default material with sentinel
index `-1` (Python literals `0`, `1`, `0.5`, `False` modelled exactly). -/
def GltfMaterial.default : GltfMaterial :=
  ⟨-1, .str "__default__", none,
    ⟨.intNum 1, .intNum 1, .intNum 1, .intNum 1⟩, none,
    .intNum 0, .intNum 1, none,
    ⟨.intNum 0, .intNum 0, .intNum 0⟩, none, none,
    .OPAQUE, .floatNum (1 / 2), .bool false, none, none⟩

/-- `GltfPrimitive` from `types.py`. -/
structure GltfPrimitive where
  material : GltfMaterial
  position : GltfAccessorSlice
  position_min : Vec3
  position_max : Vec3
  normal : Option GltfAccessorSlice
  uv0 : Option GltfAccessorSlice
  uv1 : Option GltfAccessorSlice
  uv2 : Option GltfAccessorSlice
  tangent : Option GltfAccessorSlice
  color : Option GltfAccessorSlice
  joints : Option GltfAccessorSlice
  weights : Option GltfAccessorSlice
  indices : Option GltfAccessorSlice

/-- `GltfMesh` from `types.py`. -/
structure GltfMesh where
  index : Nat
  name : JValue
  primitives : List GltfPrimitive
  extensions : Option JValue
  extras : Option JValue

/-- `GltfNode` from `types.py`.  The Python dataclass stores direct object
references for `children` (filled in the back-patch pass), the mesh, and the
skin; the model stores the mesh record by value and, for `children` and
`skin`, the normalized arena positions into the node and skin lists. -/
structure GltfNode where
  index : Nat
  name : JValue
  children : List Nat
  mesh : Option GltfMesh := none
  matrix : Option JValue := none
  translation : Option Vec3 := some ⟨.ofJ (.intNum 0), .ofJ (.intNum 0), .ofJ (.intNum 0)⟩
  rotation : Option Vec4 := some ⟨.ofJ (.intNum 0), .ofJ (.intNum 0), .ofJ (.intNum 0), .ofJ (.intNum 1)⟩
  scale : Option Vec3 := some ⟨.ofJ (.intNum 1), .ofJ (.intNum 1), .ofJ (.intNum 1)⟩
  extensions : Option JValue := none
  extras : Option JValue := none
  skin : Option Nat := none

/-- `GltfSkin` from `types.py`; `skeleton` and `joints` store normalized node
arena positions in place of the direct references Python stores. -/
structure GltfSkin where
  index : Nat
  name : JValue
  inverse_bind_matrices : Option GltfAccessorSlice
  skeleton : Option Nat
  joints : List Nat
  extensions : Option JValue := none
  extras : Option JValue := none

/-- The `GltfAnimationInterpolation` enum. -/
inductive GltfAnimationInterpolation where
  | Linear
  | Step
  | Cubicspline
deriving DecidableEq

/-- Enum construction `GltfAnimationInterpolation(v)`. -/
def GltfAnimationInterpolation.ofValue (v : JValue) :
    Except PyError GltfAnimationInterpolation :=
  match v with
  | .str s =>
    if s = "LINEAR" then .ok .Linear
    else if s = "STEP" then .ok .Step
    else if s = "CUBICSPLINE" then .ok .Cubicspline
    else .error .valueError
  | _ => .error .valueError

/-- `GltfAnimationSampler` from `types.py`. -/
structure GltfAnimationSampler where
  input : GltfAccessorSlice
  output : GltfAccessorSlice
  interpolation : GltfAnimationInterpolation := .Linear

/-- The `GltfAnimationTargetPath` enum. -/
inductive GltfAnimationTargetPath where
  | Translation
  | Rotation
  | Scale
  | Weights
deriving DecidableEq

/-- Enum construction `GltfAnimationTargetPath(v)`. -/
def GltfAnimationTargetPath.ofValue (v : JValue) :
    Except PyError GltfAnimationTargetPath :=
  match v with
  | .str s =>
    if s = "translation" then .ok .Translation
    else if s = "rotation" then .ok .Rotation
    else if s = "scale" then .ok .Scale
    else if s = "weights" then .ok .Weights
    else .error .valueError
  | _ => .error .valueError

/-- `GltfAnimationTarget` from `types.py`; the target node reference is a
normalized node arena position. -/
structure GltfAnimationTarget where
  path : GltfAnimationTargetPath
  node_index : Nat

/-- `GltfAnimationChannel` from `types.py`; `sampler` keeps the raw JSON value
exactly as the parser stores it. -/
structure GltfAnimationChannel where
  sampler : JValue
  target : GltfAnimationTarget

/-- `GltfAnimation` from `types.py`. -/
structure GltfAnimation where
  index : Nat
  name : JValue
  channels : List GltfAnimationChannel
  samplers : List GltfAnimationSampler
  extensions : Option JValue := none
  extras : Option JValue := none

/-!
Embedding of `parser.py`.  The two external byte-source collaborators that
the spec scopes out (`base64.urlsafe_b64decode` and the filesystem read of
`self.path.parent / unquote(uri)`) are supplied as functions; the per-session
`uri_cache` is dropped because, over a pure byte source, caching is
semantically transparent (re-fetching returns the same bytes).
-/

/-- Python subscription `v[k]` for JSON values: lists take integer indices
(`TypeError` otherwise, `IndexError` out of range), dicts take string keys
(`KeyError` otherwise or when absent), anything else raises `TypeError`. -/
def JValue.subscript (v : JValue) (k : JValue) : Except PyError JValue :=
  match v with
  | .arr items => pyListGet items k
  | .obj _ =>
    match k with
    | .str s => v.dictGet s
    | _ => .error .keyError
  | _ => .error .typeError

/-- A JSON value used as a Python slice bound or byte-count: only ints and
bools are accepted (`TypeError` otherwise, floats included). -/
def JValue.asSliceInt? : JValue → Option Int
  | .intNum n => some n
  | .bool b => some (if b then 1 else 0)
  | _ => none

/-- Python iteration `for x in v` over a JSON value: lists yield elements,
dicts yield their keys, strings their characters; other values raise
`TypeError`. -/
def pyIter (v : JValue) : Except PyError (List JValue) :=
  match v with
  | .arr l => .ok l
  | .obj fs => .ok (fs.map (fun p => .str p.1))
  | .str s => .ok (s.toList.map (fun c => .str (String.mk [c])))
  | _ => .error .typeError

/-- `for i, x in enumerate(xs)` collecting one result per element. -/
def mapEnumM {α : Type} (f : Nat → JValue → Except PyError α) :
    Nat → List JValue → Except PyError (List α)
  | _, [] => .ok []
  | i, x :: xs => do
    let a ← f i x
    let rest ← mapEnumM f (i + 1) xs
    return a :: rest

/-- `for i, x in enumerate(xs)` threading a state. -/
def foldEnumM {σ : Type} (f : σ → Nat → JValue → Except PyError σ) :
    Nat → σ → List JValue → Except PyError σ
  | _, st, [] => .ok st
  | i, st, x :: xs => do
    let st ← f st i x
    foldEnumM f (i + 1) st xs

/-- The `DATA_URI` regular expression from `parser.py`
(anchored `data:`, a semicolon-free MIME group, a literal `;base64,`, and the
payload group). -/
def dataUriMatch (uri : String) : Option (String × String) :=
  if strStartsWith uri "data:" then
    let rest := uri.toList.drop 5
    let mime := rest.takeWhile (fun c => c ≠ ';')
    if mime.length = rest.length then none
    else
      let after := rest.drop mime.length
      if charsBeginWith (";base64,".toList) after then
        some (String.mk mime, String.mk (after.drop 8))
      else none
  else none

/-- `name or default` for an attribute read with `.get(...)` (Python `or` on
a possibly-`None` JSON value). -/
def jValueOr (o : Option JValue) (dflt : JValue) : JValue :=
  match o with
  | some v => if v.truthy then v else dflt
  | none => dflt

/-- `GltfBufferReader` from `parser.py`: the parsed JSON tree, the optional
GLB binary blob, whether a base path was supplied, and the two external
byte-source collaborators. -/
structure GltfBufferReader where
  gltf : JValue
  bin : Option (List Nat)
  hasPath : Bool
  b64decode : String → Except PyError (List Nat)
  readFile : String → Except PyError (List Nat)

namespace GltfBufferReader

/-- `uri_bytes`: inline `data:` URIs go through the regex and base64 decode
(`RuntimeError` on a regex mismatch), other URIs are read relative to the
source file's directory when a base path exists, else
`NotImplementedError`. -/
def uri_bytes (r : GltfBufferReader) (uri : String) : Except PyError (List Nat) :=
  if strStartsWith uri "data:" then
    match dataUriMatch uri with
    | none => .error .runtimeError
    | some m => r.b64decode m.2
  else if r.hasPath then r.readFile uri
  else .error .notImplementedError

/-- Truthiness of `self.bin` (`None` and `b''` are falsy). -/
def binTruthy (r : GltfBufferReader) : Bool :=
  match r.bin with
  | some (_ :: _) => true
  | _ => false

/-- Python equality `buffer_index == 0` for a JSON value (`False == 0` and
`0.0 == 0` hold). -/
def jEqZero : JValue → Bool
  | .intNum n => n == 0
  | .floatNum q => q == 0
  | .bool b => !b
  | _ => false

/-- `_buffer_bytes`: the embedded GLB blob for buffer 0 when present,
otherwise the buffer's `uri` (which must be a string, else `GltfError`)
resolved through `uri_bytes`. -/
def _buffer_bytes (r : GltfBufferReader) (buffer_index : JValue) :
    Except PyError (List Nat) :=
  if r.binTruthy && jEqZero buffer_index then
    .ok (r.bin.getD [])
  else do
    let buffers ← r.gltf.dictGet "buffers"
    let gltf_buffer ← buffers.subscript buffer_index
    let uri ← gltf_buffer.dictGet "uri"
    match uri with
    | .str s => r.uri_bytes s
    | _ => .error .gltfError

/-- `buffer_view_bytes`: resolve the buffer view's buffer and slice
`bin[byteOffset : byteOffset + byteLength]` (a clamped Python slice). -/
def buffer_view_bytes (r : GltfBufferReader) (buffer_view_index : JValue) :
    Except PyError (List Nat) := do
  let bvs ← r.gltf.dictGet "bufferViews"
  let gltf_buffer_view ← bvs.subscript buffer_view_index
  let bufJ ← gltf_buffer_view.dictGet "buffer"
  let bin ← r._buffer_bytes bufJ
  let offJ ← gltf_buffer_view.dictGetD "byteOffset" (.intNum 0)
  let lenJ ← gltf_buffer_view.dictGet "byteLength"
  match offJ.asSliceInt?, lenJ.asSliceInt? with
  | some off, some len => return pySlice bin off (off + len)
  | _, _ => .error .typeError

/-- `read_accessor`: look up the accessor, compute
`length = sizeof(element_type) * element_count * count`, then either slice
the buffer-view bytes by the accessor's own offset and cast, or build a
zero-filled view of the computed length when no `bufferView` is declared. -/
def read_accessor (r : GltfBufferReader) (accessor_index : JValue) :
    Except PyError GltfAccessorSlice := do
  let accessors ← r.gltf.dictGet "accessors"
  let gltf_accessor ← accessors.subscript accessor_index
  let offJ ← gltf_accessor.dictGetD "byteOffset" (.intNum 0)
  let cntJ ← gltf_accessor.dictGet "count"
  let (element_type, element_count) ← get_accessor_type gltf_accessor
  let size := element_type.size
  match gltf_accessor.getKey? "bufferView" with
  | some buffer_view_index => do
    let bin ← r.buffer_view_bytes buffer_view_index
    match offJ.asSliceInt?, cntJ.asSliceInt? with
    | some off, some cnt => do
      let length : Int := (size : Int) * element_count * cnt
      let bin := pySlice bin off (off + length)
      let sv ← memviewCast size bin
      return ⟨sv, size, element_count⟩
    | _, _ => .error .typeError
  | none =>
    match cntJ.asSliceInt? with
    | some cnt => do
      let length : Int := (size : Int) * element_count * cnt
      let sv ← memviewCast size (List.replicate length.toNat 0)
      return ⟨sv, size, element_count⟩
    | none => .error .typeError

end GltfBufferReader

/-- `_parse_image` from `parser.py` (one image, declared index `i`). -/
def _parse_image (r : GltfBufferReader) (i : Nat) (gltf_image : JValue) :
    Except PyError GltfImage := do
  let name ← gltf_image.dictGetOpt "name"
  let extensions ← gltf_image.dictGetOpt "extensions"
  let extras ← gltf_image.dictGetOpt "extras"
  match gltf_image.getKey? "bufferView", gltf_image.getKey? "mimeType" with
  | some buffer_view_index, some mime => do
    let data ← r.buffer_view_bytes buffer_view_index
    let m ← MimeType.ofValue mime
    return ⟨i, jValueOr name (.str (toString i)), data, m, extensions, extras⟩
  | _, _ =>
    match gltf_image.getKey? "uri" with
    | some uriJ =>
      match uriJ with
      | .str uri =>
        if strStartsWith uri "data:" then
          match dataUriMatch uri with
          | none => .error .runtimeError
          | some m => do
            let data ← r.uri_bytes uri
            let mt ← MimeType.ofValue (.str m.1)
            return ⟨i, .str uri, data, mt, extensions, extras⟩
        else do
          let data ← r.uri_bytes uri
          let mt ← MimeType.from_name uri
          return ⟨i, .str uri, data, mt, extensions, extras⟩
      | _ => .error .attributeError
    | none => .error .gltfError

/-- `_parse_texture` from `parser.py`: a `source` image index, or the
`KHR_texture_basisu` vendor-extension source, else a bare `Exception`. -/
def _parse_texture (images : List GltfImage) (i : Nat) (gltf_texture : JValue) :
    Except PyError GltfTexture := do
  let extensions ← gltf_texture.dictGetOpt "extensions"
  let extras ← gltf_texture.dictGetOpt "extras"
  match gltf_texture.getKey? "source" with
  | some image_index => do
    let name ← gltf_texture.dictGetD "name" (.str (toString i))
    let img ← pyListGet images image_index
    return ⟨i, name, img, extensions, extras⟩
  | none =>
    match ((gltf_texture.getKey? "extensions").bind
        (fun e => e.getKey? "KHR_texture_basisu")).bind
        (fun e => e.getKey? "source") with
    | some image_index => do
      let name ← gltf_texture.dictGetD "name" (.str (toString i))
      let img ← pyListGet images image_index
      return ⟨i, name, img, extensions, extras⟩
    | none => .error .exceptionError

/-- The local-variable initialisation of `_parse_material` before the field
loop (declared-material defaults; note `metallic_factor` and
`roughness_factor` start at the float `0.0`). -/
def matInit (i : Nat) : GltfMaterial :=
  ⟨i, .str (toString i), none,
    ⟨.intNum 1, .intNum 1, .intNum 1, .intNum 1⟩, none,
    .floatNum 0, .floatNum 0, none,
    ⟨.intNum 0, .intNum 0, .intNum 0⟩, none, none,
    .OPAQUE, .floatNum (1 / 2), .bool false, none, none⟩

/-- One iteration of the inner `pbrMetallicRoughness` field loop of
`_parse_material`. -/
def pbrStep (textures : List GltfTexture) (st : GltfMaterial)
    (kk : String) (vv : JValue) : Except PyError GltfMaterial :=
  if kk = "baseColorTexture" then
    match vv.getKey? "index" with
    | some texture_index => do
      let t ← pyListGet textures texture_index
      return { st with base_color_texture := some t }
    | none => .error .gltfError
  else if kk = "baseColorFactor" then do
    let c ← rgbaOf vv
    return { st with base_color_factor := c }
  else if kk = "metallicFactor" then
    return { st with metallic_factor := vv }
  else if kk = "roughnessFactor" then
    return { st with roughness_factor := vv }
  else if kk = "metallicRoughnessTexture" then
    match vv.getKey? "index" with
    | some texture_index => do
      let t ← pyListGet textures texture_index
      return { st with metallic_roughness_texture := some t }
    | none => return st
  else .error .notImplementedError

/-- One iteration of the outer field loop of `_parse_material`. -/
def matStep (textures : List GltfTexture) (st : GltfMaterial)
    (k : String) (v : JValue) : Except PyError GltfMaterial :=
  if k = "name" then return { st with name := v }
  else if k = "pbrMetallicRoughness" then
    match v with
    | .obj fs => fs.foldlM (fun st p => pbrStep textures st p.1 p.2) st
    | _ => .error .attributeError
  else if k = "emissiveTexture" then
    match v.getKey? "index" with
    | some texture_index => do
      let t ← pyListGet textures texture_index
      return { st with emissive_texture := some t }
    | none => return st
  else if k = "emissiveFactor" then do
    let c ← rgbOf v
    return { st with emissive_factor := c }
  else if k = "alphaMode" then do
    let m ← AlphaMode.ofValue v
    return { st with alpha_mode := m }
  else if k = "alphaCutoff" then
    return { st with alpha_cutoff := v }
  else if k = "doubleSided" then
    return { st with double_sided := v }
  else if k = "normalTexture" then
    match v.getKey? "index" with
    | some texture_index => do
      let t ← pyListGet textures texture_index
      return { st with normal_texture := some t }
    | none => .error .gltfError
  else if k = "occlusionTexture" then
    match v.getKey? "index" with
    | some texture_index => do
      let t ← pyListGet textures texture_index
      return { st with occlusion_texture := some t }
    | none => .error .gltfError
  else if k = "extensions" then
    return { st with extensions := some v }
  else if k = "extras" then
    return { st with extras := some v }
  else .error .notImplementedError

/-- `_parse_material` from `parser.py`: fold the strict field schema over the
material object (unknown keys raise `NotImplementedError`). -/
def _parse_material (textures : List GltfTexture) (i : Nat)
    (gltf_material : JValue) : Except PyError GltfMaterial :=
  match gltf_material with
  | .obj fs => fs.foldlM (fun st p => matStep textures st p.1 p.2) (matInit i)
  | _ => .error .attributeError

/-- The local attribute state of the primitive loop in `_parse_mesh` before
the attribute walk. -/
structure PrimAttrs where
  positions : Option GltfAccessorSlice := none
  position_min : Vec3 := ⟨.posInf, .posInf, .posInf⟩
  position_max : Vec3 := ⟨.negInf, .negInf, .negInf⟩
  normal : Option GltfAccessorSlice := none
  uv0 : Option GltfAccessorSlice := none
  uv1 : Option GltfAccessorSlice := none
  uv2 : Option GltfAccessorSlice := none
  tangent : Option GltfAccessorSlice := none
  color : Option GltfAccessorSlice := none
  joints : Option GltfAccessorSlice := none
  weights : Option GltfAccessorSlice := none

/-- One iteration of the attribute walk in `_parse_mesh` (unknown attribute
keys raise `NotImplementedError`; POSITION also copies declared bounds when
both `min` and `max` are present). -/
def attrStep (r : GltfBufferReader) (st : PrimAttrs) (k : String) (v : JValue) :
    Except PyError PrimAttrs := do
  if k = "POSITION" then do
    let pos ← r.read_accessor v
    let accessors ← r.gltf.dictGet "accessors"
    let acc ← accessors.subscript v
    match acc.getKey? "min", acc.getKey? "max" with
    | some min_list, some max_list => do
      let mn ← vec3Of min_list
      let mx ← vec3Of max_list
      return { st with positions := some pos, position_min := mn, position_max := mx }
    | _, _ => return { st with positions := some pos }
  else if k = "NORMAL" then do
    let s ← r.read_accessor v
    return { st with normal := some s }
  else if k = "TEXCOORD_0" then do
    let s ← r.read_accessor v
    return { st with uv0 := some s }
  else if k = "TEXCOORD_1" then do
    let s ← r.read_accessor v
    return { st with uv1 := some s }
  else if k = "TEXCOORD_2" then do
    let s ← r.read_accessor v
    return { st with uv2 := some s }
  else if k = "TANGENT" then do
    let s ← r.read_accessor v
    return { st with tangent := some s }
  else if k = "COLOR_0" then do
    let s ← r.read_accessor v
    return { st with color := some s }
  else if k = "JOINTS_0" then do
    let s ← r.read_accessor v
    return { st with joints := some s }
  else if k = "WEIGHTS_0" then do
    let s ← r.read_accessor v
    return { st with weights := some s }
  else .error .notImplementedError

/-- The attribute walk of the primitive loop (`for k, v in
gltf_attributes.items()`; `.items()` on a non-dict raises
`AttributeError`). -/
def parse_prim_attributes (r : GltfBufferReader) (gltf_attributes : JValue) :
    Except PyError PrimAttrs :=
  match gltf_attributes with
  | .obj fs => fs.foldlM (fun st p => attrStep r st p.1 p.2) {}
  | _ => .error .attributeError

/-- The `indices` step of the primitive loop: read the accessor when the key
exists. -/
def parse_prim_indices (r : GltfBufferReader) (o : Option JValue) :
    Except PyError (Option GltfAccessorSlice) :=
  match o with
  | some accessor => do
    let s ← r.read_accessor accessor
    pure (some s)
  | none => pure none

/-- The material step of the primitive loop: look up a declared material
index, or substitute `GltfMaterial.default()` when no `material` key
exists. -/
def parse_prim_material (materials : List GltfMaterial) (o : Option JValue) :
    Except PyError GltfMaterial :=
  match o with
  | some material_index => pyListGet materials material_index
  | none => pure GltfMaterial.default

/-- The body of the primitive loop of `_parse_mesh`: attribute walk, required
POSITION check (`GltfError('no POSITIONS')`), optional indices, and material
lookup with default-material substitution when no `material` key exists. -/
def parse_primitive (r : GltfBufferReader) (materials : List GltfMaterial)
    (gltf_prim : JValue) : Except PyError GltfPrimitive := do
  let gltf_attributes ← gltf_prim.subscript (.str "attributes")
  let st ← parse_prim_attributes r gltf_attributes
  match st.positions with
  | none => .error .gltfError
  | some positions => do
    let indices ← parse_prim_indices r (gltf_prim.getKey? "indices")
    let material ← parse_prim_material materials (gltf_prim.getKey? "material")
    return ⟨material, positions, st.position_min, st.position_max,
      st.normal, st.uv0, st.uv1, st.uv2, st.tangent, st.color,
      st.joints, st.weights, indices⟩

/-- `_parse_mesh` from `parser.py`. -/
def _parse_mesh (r : GltfBufferReader) (materials : List GltfMaterial)
    (i : Nat) (gltf_mesh : JValue) : Except PyError GltfMesh := do
  let primsJ ← gltf_mesh.subscript (.str "primitives")
  let pl ← pyIter primsJ
  let primitives ← pl.mapM (parse_primitive r materials)
  let name ← gltf_mesh.dictGetD "name" (.str (toString i))
  let extensions ← gltf_mesh.dictGetOpt "extensions"
  let extras ← gltf_mesh.dictGetOpt "extras"
  return ⟨i, name, primitives, extensions, extras⟩

/-- One iteration of the field loop of `_parse_node` (pass 1: `children` and
`skin` are deliberately skipped, unknown keys raise
`NotImplementedError`). -/
def nodeStep (meshes : List GltfMesh) (st : GltfNode) (k : String) (v : JValue) :
    Except PyError GltfNode :=
  if k = "name" then return { st with name := v }
  else if k = "mesh" then do
    let m ← pyListGet meshes v
    return { st with mesh := some m }
  else if k = "children" then return st
  else if k = "matrix" then return { st with matrix := some v }
  else if k = "translation" then do
    let t ← vec3Of v
    return { st with translation := some t }
  else if k = "rotation" then do
    let t ← vec4Of v
    return { st with rotation := some t }
  else if k = "scale" then do
    let t ← vec3Of v
    return { st with scale := some t }
  else if k = "skin" then return st
  else if k = "camera" then return st
  else if k = "extensions" then return { st with extensions := some v }
  else if k = "extras" then return { st with extras := some v }
  else .error .notImplementedError

/-- `_parse_node` from `parser.py` (pass 1). -/
def _parse_node (meshes : List GltfMesh) (i : Nat) (gltf_node : JValue) :
    Except PyError GltfNode :=
  match gltf_node with
  | .obj fs =>
    fs.foldlM (fun st p => nodeStep meshes st p.1 p.2)
      { index := i, name := .str (toString i), children := [] }
  | _ => .error .attributeError

/-- `_parse_skin` from `parser.py`; node references become normalized node
arena positions. -/
def _parse_skin (r : GltfBufferReader) (nodes : List GltfNode) (i : Nat)
    (gltf_skin : JValue) : Except PyError GltfSkin := do
  let matrices ← match gltf_skin.getKey? "inverseBindMatrices" with
    | some accessor => do
      let s ← r.read_accessor accessor
      pure (some s)
    | none => pure none
  let skeleton ← match gltf_skin.getKey? "skeleton" with
    | some skeleton_index => do
      let n ← pyListGetNorm nodes skeleton_index
      pure (some n)
    | none => pure none
  let name ← gltf_skin.dictGetD "name" (.str (toString i))
  let jointsJ ← gltf_skin.subscript (.str "joints")
  let jl ← pyIter jointsJ
  let joints ← jl.mapM (pyListGetNorm nodes)
  let extensions ← gltf_skin.dictGetOpt "extensions"
  let extras ← gltf_skin.dictGetOpt "extras"
  return ⟨i, name, matrices, skeleton, joints, extensions, extras⟩

/-- `_parse_animation_channel` from `parser.py`: `sampler` and a
`target.node` / `target.path` pair must all be present, else `GltfError`. -/
def _parse_animation_channel (nodes : List GltfNode) (g : JValue) :
    Except PyError GltfAnimationChannel :=
  match g.getKey? "sampler", g.getKey? "target" with
  | some sampler, some target =>
    match target.getKey? "node", target.getKey? "path" with
    | some target_node, some target_path => do
      let p ← GltfAnimationTargetPath.ofValue target_path
      let n ← pyListGetNorm nodes target_node
      return ⟨sampler, ⟨p, n⟩⟩
    | _, _ => .error .gltfError
  | _, _ => .error .gltfError

/-- `_parse_animation_sampler` from `parser.py`. -/
def _parse_animation_sampler (r : GltfBufferReader) (g : JValue) :
    Except PyError GltfAnimationSampler :=
  match g.getKey? "input", g.getKey? "output" with
  | some input, some output => do
    let interpolation ← g.dictGetD "interpolation" (.str "LINEAR")
    let inp ← r.read_accessor input
    let outp ← r.read_accessor output
    let interp ← GltfAnimationInterpolation.ofValue interpolation
    return ⟨inp, outp, interp⟩
  | _, _ => .error .gltfError

/-- `_parse_animation` from `parser.py`. -/
def _parse_animation (r : GltfBufferReader) (nodes : List GltfNode) (i : Nat)
    (g : JValue) : Except PyError GltfAnimation := do
  let channelsJ ← g.subscript (.str "channels")
  let cl ← pyIter channelsJ
  let channels ← cl.mapM (_parse_animation_channel nodes)
  let samplersJ ← g.subscript (.str "samplers")
  let sl ← pyIter samplersJ
  let samplers ← sl.mapM (_parse_animation_sampler r)
  let name ← g.dictGetD "name" (.str (toString i))
  return ⟨i, name, channels, samplers, none, none⟩

/-- One iteration of the node back-patch pass (`# node 2 pass` in
`GltfData.parse`): append each resolved child reference to
`self.nodes[i].children`, then resolve a declared `skin` index.  A sequence
pattern `case [*children]` only matches a list; any other `children` value is
silently skipped.  References are stored as normalized arena positions. -/
def pass2_child_append (i : Nat) (ns : List GltfNode) (child_index : JValue) :
    Except PyError (List GltfNode) := do
  let nd ← pyGetIdx ns (i : Int)
  let ci ← pyListGetNorm ns child_index
  pure (List.set ns i { nd with children := nd.children ++ [ci] })

/-- The children part of one back-patch iteration (`case [*children]` only
matches a list; anything else is skipped). -/
def pass2_children (ns : List GltfNode) (i : Nat) (childrenOpt : Option JValue) :
    Except PyError (List GltfNode) :=
  match childrenOpt with
  | some (.arr children) => children.foldlM (pass2_child_append i) ns
  | _ => pure ns

/-- The skin part of one back-patch iteration. -/
def pass2_skin (skins : List GltfSkin) (ns : List GltfNode) (i : Nat)
    (skinOpt : Option JValue) : Except PyError (List GltfNode) :=
  match skinOpt with
  | some skin_index => do
    let si ← pyListGetNorm skins skin_index
    let nd ← pyGetIdx ns (i : Int)
    pure (List.set ns i { nd with skin := some si })
  | none => pure ns

def nodes_pass2_step (skins : List GltfSkin) (ns : List GltfNode) (i : Nat)
    (gltf_node : JValue) : Except PyError (List GltfNode) := do
  let childrenOpt ← gltf_node.dictGetOpt "children"
  let ns ← pass2_children ns i childrenOpt
  pass2_skin skins ns i (gltf_node.getKey? "skin")

/-- The node back-patch pass: re-enumerate `self.gltf.get('nodes', [])` over
the pass-1 node list. -/
def nodes_pass2 (gltf : JValue) (skins : List GltfSkin)
    (nodes1 : List GltfNode) : Except PyError (List GltfNode) := do
  let nsJ ← gltf.dictGetD "nodes" (.arr [])
  let nl ← pyIter nsJ
  foldEnumM (nodes_pass2_step skins) 0 nodes1 nl

/-- The scene-root pass: `self.gltf['scenes'][self.gltf.get('scene', 0)]
['nodes']` resolved to normalized node arena positions. -/
def parse_scene (gltf : JValue) (nodes : List GltfNode) :
    Except PyError (List Nat) := do
  let scenes ← gltf.subscript (.str "scenes")
  let sidx ← gltf.dictGetD "scene" (.intNum 0)
  let sceneObj ← scenes.subscript sidx
  let nodesJ ← sceneObj.subscript (.str "nodes")
  let nl ← pyIter nodesJ
  nl.mapM (pyListGetNorm nodes)

/-- The materials pass of `GltfData.parse`: `maetrials = self.gltf.get('materials')`
followed by `if maetrials:`.  In the falsy arm the source constructs
`NotImplementedError('no material')` but does not raise it, so the pass
yields an empty material list there. -/
def parse_materials_pass (textures : List GltfTexture)
    (materialsOpt : Option JValue) : Except PyError (List GltfMaterial) :=
  match materialsOpt with
  | some mv =>
    if mv.truthy then do
      let ml ← pyIter mv
      mapEnumM (_parse_material textures) 0 ml
    else pure []
  | none => pure []

/-- `GltfData` from `parser.py` after `parse()` has filled the entity lists
(`scene` holds normalized node arena positions). -/
structure GltfData where
  gltf : JValue
  bin : Option (List Nat)
  images : List GltfImage
  textures : List GltfTexture
  materials : List GltfMaterial
  meshes : List GltfMesh
  skins : List GltfSkin
  nodes : List GltfNode
  scene : List Nat
  animations : List GltfAnimation

/-- `GltfData.parse`: the fixed multi-pass assembly order.  In the materials
pass the source constructs `NotImplementedError('no material')` when
`self.gltf.get('materials')` is falsy but does not raise it, so the parse
continues with an empty material list. -/
def GltfData.parse (r : GltfBufferReader) : Except PyError GltfData := do
  let imagesJ ← r.gltf.dictGetD "images" (.arr [])
  let il ← pyIter imagesJ
  let images ← mapEnumM (_parse_image r) 0 il
  let texturesJ ← r.gltf.dictGetD "textures" (.arr [])
  let tl ← pyIter texturesJ
  let textures ← mapEnumM (_parse_texture images) 0 tl
  let materialsOpt ← r.gltf.dictGetOpt "materials"
  let materials ← parse_materials_pass textures materialsOpt
  let meshesJ ← r.gltf.dictGetD "meshes" (.arr [])
  let ml ← pyIter meshesJ
  let meshes ← mapEnumM (_parse_mesh r materials) 0 ml
  let nodesJ ← r.gltf.dictGetD "nodes" (.arr [])
  let nl ← pyIter nodesJ
  let nodes1 ← mapEnumM (_parse_node meshes) 0 nl
  let skinsJ ← r.gltf.dictGetD "skins" (.arr [])
  let sl ← pyIter skinsJ
  let skins ← mapEnumM (_parse_skin r nodes1) 0 sl
  let nodes ← nodes_pass2 r.gltf skins nodes1
  let scene ← parse_scene r.gltf nodes
  let animationsJ ← r.gltf.dictGetD "animations" (.arr [])
  let al ← pyIter animationsJ
  let animations ← mapEnumM (_parse_animation r nodes) 0 al
  return ⟨r.gltf, r.bin, images, textures, materials, meshes, skins, nodes,
    scene, animations⟩

/-- The external collaborators of one parse run: the generic JSON parser
`json.loads` and the two byte-source fetchers. -/
structure PyWorld where
  loads : List Nat → Except PyError JValue
  b64decode : String → Except PyError (List Nat)
  readFile : String → Except PyError (List Nat)

/-- `parse_gltf` from `parser.py`: `json.loads` the chunk, then run the
assembler. -/
def parse_gltf (w : PyWorld) (json_chunk : List Nat) (hasPath : Bool)
    (bin : Option (List Nat)) : Except PyError GltfData := do
  let g ← w.loads json_chunk
  GltfData.parse ⟨g, bin, hasPath, w.b64decode, w.readFile⟩

/-- Python truthiness of an optional byte string (`None` and `b''` are
falsy), as tested by `if json and bin:` in `parse_path`. -/
def optBytesTruthy : Option (List Nat) → Bool
  | some (_ :: _) => true
  | _ => false

/-- `parse_path` from `__init__.py`: try the GLB decode, use its payload only
when both the JSON and BIN chunks are present and non-empty, catch `GlbError`
only, and fall back to parsing the whole input as plain JSON. -/
def parse_path (w : PyWorld) (data : List Nat) : Except PyError GltfData :=
  let attempt : Except PyError (Option GltfData) := do
    let (json, bin) ← parse_glb data
    if optBytesTruthy json && optBytesTruthy bin then do
      let d ← parse_gltf w (json.getD []) true bin
      return some d
    else
      return none
  match attempt with
  | .ok (some d) => .ok d
  | .ok none => parse_gltf w data true none
  | .error e => if e = .glbError then parse_gltf w data true none else .error e


/-!
Concrete inputs used by the claim theorems: minimal documents, binary
containers, readers, and views, each small enough for the kernel to
evaluate.
-/

def noBytes : String → Except PyError (List Nat) := fun _ => .error .ioError

def docMinimal : JValue := .obj [("scenes", .arr [.obj [("nodes", .arr [])]])]

def worldMinimal : PyWorld := ⟨fun _ => .ok docMinimal, noBytes, noBytes⟩

def readerMinimal : GltfBufferReader := ⟨docMinimal, none, true, noBytes, noBytes⟩

def glbUnknownChunk : List Nat :=
  [0x67, 0x6C, 0x54, 0x46] ++ [2, 0, 0, 0] ++ [20, 0, 0, 0] ++
  [0, 0, 0, 0] ++ [5, 0, 0, 0]

def glbJsonOnly : List Nat :=
  [0x67, 0x6C, 0x54, 0x46] ++ [2, 0, 0, 0] ++ [24, 0, 0, 0] ++
  [4, 0, 0, 0] ++ [0x4A, 0x53, 0x4F, 0x4E] ++ [1, 2, 3, 4]

def worldJsonOnly : PyWorld :=
  ⟨fun bs => if bs = [1, 2, 3, 4] then .ok docMinimal else .error .valueError,
    noBytes, noBytes⟩

def sliceTwo : GltfAccessorSlice := ⟨[[1], [2]], 1, 1⟩

def sliceSix : GltfAccessorSlice := ⟨[[1], [2], [3], [4], [5], [6]], 1, 3⟩

def imagePng : GltfImage := ⟨0, .str "a.png", [9], .Png, none, none⟩

def readFilePng : String → Except PyError (List Nat) :=
  fun s => if s = "a.png" then .ok [9] else .error .ioError

def docNegativeTexture : JValue := .obj [
  ("images", .arr [.obj [("uri", .str "a.png")]]),
  ("textures", .arr [.obj [("source", .intNum (-1))]]),
  ("scenes", .arr [.obj [("nodes", .arr [])]])]

def readerNegativeTexture : GltfBufferReader :=
  ⟨docNegativeTexture, none, true, noBytes, readFilePng⟩

def readerEmptyDoc : GltfBufferReader := ⟨.obj [], none, true, noBytes, noBytes⟩

def accShortBuffer : JValue := .obj [("componentType", .intNum 5121),
  ("type", .str "SCALAR"), ("count", .intNum 2), ("bufferView", .intNum 0)]

def docShortBuffer : JValue := .obj [
  ("accessors", .arr [accShortBuffer]),
  ("bufferViews", .arr [.obj [("buffer", .intNum 0), ("byteLength", .intNum 2)]])]

def readerShortBuffer : GltfBufferReader :=
  ⟨docShortBuffer, some [7], true, noBytes, noBytes⟩

def readerFullBuffer : GltfBufferReader :=
  ⟨docShortBuffer, some [7, 7], true, noBytes, noBytes⟩

def docPrimOnly : JValue := .obj [
  ("accessors", .arr [.obj [("componentType", .intNum 5126),
    ("type", .str "VEC3"), ("count", .intNum 1)]])]

def readerPrimOnly : GltfBufferReader :=
  ⟨docPrimOnly, none, true, noBytes, noBytes⟩

def primNoMaterial : JValue := .obj [("attributes",
  .obj [("POSITION", .intNum 0)])]

def matRed : GltfMaterial := { matInit 0 with name := .str "Red" }

/-- The JSON value of a node-index literal. -/
def natJ (k : Nat) : JValue := .intNum (Int.ofNat k)

def junkData : GltfData := ⟨.null, none, [], [], [], [], [], [], [], []⟩

/-- Extract the payload of a known-successful parse result. -/
def exceptValue {α : Type} (dflt : α) : Except PyError α → α
  | .ok a => a
  | .error _ => dflt

def gnTwoNodes : JValue :=
  .obj [("children", .arr [.intNum 1]), ("skin", .intNum 0)]

def docTwoNodes : JValue := .obj [
  ("nodes", .arr [gnTwoNodes, .obj []]),
  ("skins", .arr [.obj [("joints", .arr [.intNum 1])]]),
  ("scenes", .arr [.obj [("nodes", .arr [.intNum 0])]])]

def readerTwoNodes : GltfBufferReader :=
  ⟨docTwoNodes, none, true, noBytes, noBytes⟩

def dTwoNodes : GltfData :=
  exceptValue junkData (GltfData.parse readerTwoNodes)

/-!
Generic lemmas about the embedding primitives, shared by the claim
theorems.
-/

theorem except_bind_ok {α β : Type} {x : Except PyError α}
    {f : α → Except PyError β} {b : β} :
    (x >>= f) = .ok b ↔ ∃ a, x = .ok a ∧ f a = .ok b := by
  cases x with
  | error e => simp [Bind.bind, Except.bind]
  | ok a => simp [Bind.bind, Except.bind]

theorem except_pure_ok {α : Type} {a b : α} :
    (pure a : Except PyError α) = .ok b ↔ a = b := by
  simp [pure, Except.pure]

theorem pyGetIdx_nat {α : Type} {l : List α} {m : Nat} {a : α}
    (h : l.get? m = some a) : pyGetIdx l (m : Int) = .ok a := by
  have hm : m < l.length := List.get?_eq_some.mp h |>.1
  simp only [pyGetIdx, pyNorm]
  rw [if_neg (by omega), if_pos (by exact_mod_cast hm)]
  simp only [Int.toNat_natCast, h]

theorem pyListGetNorm_nat {α : Type} (l : List α) (k : Nat)
    (hk : k < l.length) : pyListGetNorm l (.intNum k) = .ok k := by
  simp only [pyListGetNorm, JValue.asIndex?, pyNormIdx, pyNorm]
  rw [if_neg (by omega), if_pos (by exact_mod_cast hk)]
  simp [hk]

theorem pyListGetNorm_out {α : Type} (l : List α) (n : Int)
    (h : (l.length : Int) ≤ n ∨ n < -(l.length : Int)) :
    pyListGetNorm l (.intNum n) = .error .indexError := by
  simp only [pyListGetNorm, JValue.asIndex?, pyNormIdx, pyNorm]
  rcases h with h | h
  · rw [if_neg (by omega), if_neg (by omega)]
  · rw [if_pos (by omega), if_neg (by omega)]

theorem pyListGet_out {α : Type} (l : List α) (n : Int)
    (h : (l.length : Int) ≤ n ∨ n < -(l.length : Int)) :
    pyListGet l (.intNum n) = .error .indexError := by
  simp only [pyListGet, JValue.asIndex?, pyGetIdx, pyNorm]
  rcases h with h | h
  · rw [if_neg (by omega), if_neg (by omega)]
  · rw [if_pos (by omega), if_neg (by omega)]

theorem pyListGet_neg {α : Type} (l : List α) (n : Int) {a : α}
    (h1 : -(l.length : Int) ≤ n) (h2 : n < 0)
    (ha : l.get? (n + l.length).toNat = some a) :
    pyListGet l (.intNum n) = .ok a := by
  simp only [pyListGet, JValue.asIndex?, pyGetIdx, pyNorm]
  rw [if_pos h2, if_pos (by omega)]
  simp only [ha]

theorem pySliceBound_of_nonneg (len : Nat) (i : Int) (h0 : 0 ≤ i) :
    pySliceBound len i = min i.toNat len := by
  simp only [pySliceBound]
  rw [if_neg (show ¬(i < 0) by omega)]
  rw [if_neg (show ¬(i < 0) by omega)]
  by_cases h : (len : Int) < i
  · rw [if_pos h]
    omega
  · rw [if_neg h]
    omega

theorem pySlice_nat {α : Type} (l : List α) (a b : Nat)
    (hb : b ≤ l.length) :
    pySlice l (a : Int) (b : Int) = (l.take b).drop a := by
  simp only [pySlice, pySliceBound_of_nonneg _ _ (by omega : (0:Int) ≤ (a:Int)),
    pySliceBound_of_nonneg _ _ (by omega : (0:Int) ≤ (b:Int)), Int.toNat_natCast]
  rw [Nat.min_eq_left hb]
  rcases Nat.le_total a l.length with h | h
  · rw [Nat.min_eq_left h]
  · rw [Nat.min_eq_right h]
    have h1 : ((l.take b).drop l.length) = [] :=
      List.drop_eq_nil_of_le (by simp)
    have h2 : ((l.take b).drop a) = [] :=
      List.drop_eq_nil_of_le (by simp; omega)
    rw [h1, h2]

theorem pySlice_length_of_bounds {α : Type} (l : List α) (a b : Int)
    (h0 : 0 ≤ a) (hab : a ≤ b) (hb : b ≤ (l.length : Int)) :
    (pySlice l a b).length = (b - a).toNat := by
  have ha' : a = ((a.toNat : Nat) : Int) := by omega
  have hb' : b = ((b.toNat : Nat) : Int) := by omega
  rw [ha', hb', pySlice_nat l a.toNat b.toNat (by omega)]
  simp
  omega

theorem chunkScalarsAux_length (n : Nat) (hn : 0 < n) :
    ∀ (fuel : Nat) (l : List Nat), l.length ≤ fuel → n ∣ l.length →
      (chunkScalarsAux n fuel l).length = l.length / n := by
  intro fuel
  induction fuel with
  | zero =>
    intro l hl _
    have hnil : l = [] := by
      cases l with
      | nil => rfl
      | cons x xs => simp at hl
    subst hnil
    simp [chunkScalarsAux]
  | succ N ih =>
    intro l hl hd
    cases l with
    | nil => simp [chunkScalarsAux]
    | cons x xs =>
      have hpos : 0 < (x :: xs).length := by simp
      have hle : n ≤ (x :: xs).length := Nat.le_of_dvd hpos hd
      have hdl : ((x :: xs).drop n).length = (x :: xs).length - n := by simp
      have hdvd : n ∣ ((x :: xs).drop n).length := by
        rw [hdl]
        exact Nat.dvd_sub (by omega) hd dvd_rfl
      have hfl : ((x :: xs).drop n).length ≤ N := by
        simp at hdl hl ⊢
        omega
      have hrec := ih ((x :: xs).drop n) hfl hdvd
      simp only [chunkScalarsAux, List.length_cons, hrec, hdl]
      have hdiv := Nat.div_eq_sub_div hn hle
      simp only [List.length_cons] at hdiv
      omega

theorem chunkScalars_length (n : Nat) (hn : 0 < n) (l : List Nat)
    (hd : n ∣ l.length) : (chunkScalars n l).length = l.length / n := by
  simp only [chunkScalars]
  rw [if_neg (by omega)]
  exact chunkScalarsAux_length n hn l.length l le_rfl hd

theorem memviewCast_dvd (n : Nat) (l : List Nat) (hd : n ∣ l.length) :
    memviewCast n l = .ok (chunkScalars n l) := by
  simp only [memviewCast]
  rw [if_pos (Nat.mod_eq_zero_of_dvd hd)]


/-!
The claim theorems, their counterexamples and witnesses, and the supporting
lemmas they use.
-/

/-- C1, counterexample: a GLB container with a valid header whose single chunk has the unknown type tag 5 makes `parse_glb` raise `NotImplementedError`, which `except GlbError` does not catch, so `parse_path` surfaces the binary-decode error to the caller instead of retrying the input as JSON (the supplied `json.loads` would have produced a parseable document). -/
theorem parse_path_surfaces_unknown_chunk :
    parse_path worldMinimal glbUnknownChunk = .error .notImplementedError ∧
    parse_gltf worldMinimal glbUnknownChunk true none =
      GltfData.parse ⟨docMinimal, none, true, noBytes, noBytes⟩ := by
  exact ⟨rfl, rfl⟩

/-- C1, amended: only GLB failures raised as `GlbError` (bad magic, unsupported version) are swallowed by `parse_path`, making it fall back to parsing the whole input as plain JSON; a binary decode failing with any other exception class (unknown chunk type raises `NotImplementedError`, a read past the end raises `IOError`) propagates that error to the caller. -/
theorem parse_path_glb_exception_policy (w : PyWorld) (data : List Nat)
    (e : PyError) (h : parse_glb data = .error e) :
    (e = .glbError → parse_path w data = parse_gltf w data true none) ∧
    (e ≠ .glbError → parse_path w data = .error e) := by
  simp only [parse_path, h, Bind.bind, Except.bind]
  constructor
  · intro he
    rw [if_pos he]
  · intro he
    rw [if_neg he]

/-- Witness for the amended C1 theorem at a concrete bad-magic input. -/
theorem parse_path_glb_exception_policy_witness :
    parse_path worldMinimal [0, 0, 0, 0] =
      parse_gltf worldMinimal [0, 0, 0, 0] true none :=
  (parse_path_glb_exception_policy worldMinimal [0, 0, 0, 0] .glbError rfl).1 rfl

/-- C2, code evaluation at the failing input: a document with no `materials` array parses successfully with an empty material list, because the `NotImplementedError('no material')` in the materials pass is constructed but never raised. -/
theorem parse_missing_materials_succeeds :
    docMinimal.getKey? "materials" = none ∧
    (GltfData.parse readerMinimal).map (fun d => d.materials) = .ok [] := by
  exact ⟨rfl, rfl⟩

/-- C3, counterexample: on a valid GLB whose chunk sequence has a JSON chunk and no BIN chunk, `parse_glb` does return the JSON bytes with no blob, but `parse_path` does not build the scene graph from those extracted bytes: `if json and bin` fails, the whole binary input is re-parsed as JSON, and the run fails with the JSON parser's `ValueError` even though the extracted chunk parses fine. -/
theorem parse_path_ignores_extracted_json :
    parse_glb glbJsonOnly = .ok (some [1, 2, 3, 4], none) ∧
    worldJsonOnly.loads [1, 2, 3, 4] = .ok docMinimal ∧
    parse_path worldJsonOnly glbJsonOnly = .error .valueError := by
  exact ⟨rfl, rfl, rfl⟩

/-- C3, amended: `parse_path` uses the GLB payload only when both the JSON and the BIN chunk are present and non-empty; whenever the decode succeeds with either chunk missing or empty, it falls back to parsing the entire input bytes as plain JSON, ignoring the extracted JSON chunk. -/
theorem parse_path_requires_both_chunks (w : PyWorld) (data : List Nat)
    (j b : Option (List Nat)) (h : parse_glb data = .ok (j, b))
    (hnb : (optBytesTruthy j && optBytesTruthy b) = false) :
    parse_path w data = parse_gltf w data true none := by
  simp only [parse_path, h, Bind.bind, Except.bind, hnb, Bool.false_eq_true,
    if_false, pure, Except.pure]

/-- Witness for the amended C3 theorem at the concrete JSON-only container. -/
theorem parse_path_requires_both_chunks_witness :
    parse_path worldJsonOnly glbJsonOnly =
      parse_gltf worldJsonOnly glbJsonOnly true none :=
  parse_path_requires_both_chunks worldJsonOnly glbJsonOnly
    (some [1, 2, 3, 4]) none rfl rfl

theorem flatten_length_uniform (m : Nat) :
    ∀ l : List (List Nat), (∀ x ∈ l, x.length = m) →
      l.flatten.length = l.length * m := by
  intro l
  induction l with
  | nil => intro _; simp
  | cons x xs ih =>
    intro hw
    have hx := hw x (by simp)
    have hxs : ∀ y ∈ xs, y.length = m := fun y hy => hw y (by simp [hy])
    simp [List.length_append, hx, ih hxs]
    ring

/-- C4, amended: for a typed view with uniform scalar widths, `get_item(i)` with `0 <= i < get_count()` returns exactly `element_count` scalars that start right after `i * get_stride()` bytes of preceding data; for `i >= get_count()` it silently returns a clamped slice of fewer than `element_count` scalars instead of failing. -/
theorem get_item_python_semantics (s : GltfAccessorSlice) (i : Int)
    (hec : 0 < s.element_count)
    (hw : ∀ x ∈ s.scalar_view, x.length = s.itemsize) (h0 : 0 ≤ i) :
    (i.toNat < s.get_count →
      (s.get_item i).length = s.element_count ∧
      s.get_item i =
        (s.scalar_view.drop (i.toNat * s.element_count)).take s.element_count ∧
      ((s.scalar_view.take (i.toNat * s.element_count)).flatten).length =
        i.toNat * s.get_stride) ∧
    (s.get_count ≤ i.toNat → (s.get_item i).length < s.element_count) := by
  obtain ⟨iN, rfl⟩ : ∃ n : Nat, i = (n : Int) := ⟨i.toNat, by omega⟩
  have hcast1 : ((iN : Int) * s.element_count) =
      ((iN * s.element_count : Nat) : Int) := by push_cast; ring
  have hcast2 : (((iN * s.element_count : Nat) : Int) + s.element_count) =
      ((iN * s.element_count + s.element_count : Nat) : Int) := by
    push_cast; ring
  simp only [Int.toNat_natCast]
  constructor
  · intro hi
    have hi' : (iN + 1) * s.element_count ≤ s.scalar_view.length := by
      rw [GltfAccessorSlice.get_count] at hi
      exact (Nat.le_div_iff_mul_le hec).mp (by omega)
    have hb' : iN * s.element_count + s.element_count ≤ s.scalar_view.length := by
      have h1 : (iN + 1) * s.element_count =
          iN * s.element_count + s.element_count := by ring
      omega
    have hitem : s.get_item (iN : Int) =
        (s.scalar_view.take
          (iN * s.element_count + s.element_count)).drop
            (iN * s.element_count) := by
      rw [GltfAccessorSlice.get_item, hcast1, hcast2]
      exact pySlice_nat _ _ _ hb'
    refine ⟨?_, ?_, ?_⟩
    · rw [hitem]
      simp only [List.length_drop, List.length_take]
      omega
    · rw [hitem, List.take_drop]
    · have hsub : ∀ x ∈ s.scalar_view.take (iN * s.element_count),
          x.length = s.itemsize :=
        fun x hx => hw x (List.take_subset _ _ hx)
      rw [flatten_length_uniform s.itemsize _ hsub]
      simp only [List.length_take]
      rw [GltfAccessorSlice.get_stride]
      have hmin : min (iN * s.element_count) s.scalar_view.length =
          iN * s.element_count := by omega
      rw [hmin]
      ring
  · intro hge
    rw [GltfAccessorSlice.get_count] at hge
    have hlt : s.scalar_view.length < (iN + 1) * s.element_count :=
      (Nat.div_lt_iff_lt_mul hec).mp (by omega)
    have h1 : (iN + 1) * s.element_count =
        iN * s.element_count + s.element_count := by ring
    rw [GltfAccessorSlice.get_item, hcast1, hcast2]
    simp only [pySlice,
      pySliceBound_of_nonneg _ _
        (by omega : (0:Int) ≤ ((iN * s.element_count + s.element_count : Nat) : Int)),
      pySliceBound_of_nonneg _ _
        (by omega : (0:Int) ≤ ((iN * s.element_count : Nat) : Int)),
      Int.toNat_natCast, List.length_drop, List.length_take]
    omega

/-- C4, counterexample: out-of-range `get_item` is not a hard failure: index 5 on a two-element view silently yields an empty slice, and the negative index -2 wraps around Python-style and yields the first element's scalars. -/
theorem get_item_out_of_range_is_silent :
    sliceTwo.get_count = 2 ∧ sliceTwo.get_item 5 = [] ∧
    sliceSix.get_count = 2 ∧ sliceSix.get_item (-2) = [[1], [2], [3]] := by
  exact ⟨rfl, rfl, rfl, rfl⟩

/-- Witness for the amended C4 theorem at a concrete in-range access. -/
theorem get_item_python_semantics_witness :
    (sliceTwo.get_item 0).length = sliceTwo.element_count :=
  ((get_item_python_semantics sliceTwo 0 (by decide) (by decide)
    (by decide)).1 (by decide)).1

theorem dictGetD_obj (fs : List (String × JValue)) (k : String) (d : JValue) :
    (JValue.obj fs).dictGetD k d = .ok (((JValue.obj fs).getKey? k).getD d) := by
  simp only [JValue.dictGetD]
  cases h : (JValue.obj fs).getKey? k <;> simp [h]

/-- C5, amended: a texture `source` index at or beyond the image count (or below `-len`) is a hard `IndexError` failure and is never clamped, but a negative index within `[-len, -1]` is silently accepted Python-style and resolves to an image counted from the end of the array. -/
theorem texture_index_python_semantics (images : List GltfImage) (i : Nat)
    (fs : List (String × JValue)) (n : Int)
    (hsrc : (JValue.obj fs).getKey? "source" = some (.intNum n)) :
    (((images.length : Int) ≤ n ∨ n < -(images.length : Int)) →
      _parse_texture images i (.obj fs) = .error .indexError) ∧
    (∀ img, -(images.length : Int) ≤ n → n < 0 →
      images.get? (n + images.length).toNat = some img →
      ∃ t, _parse_texture images i (.obj fs) = .ok t ∧ t.image = img) := by
  constructor
  · intro hout
    simp only [_parse_texture, JValue.dictGetOpt, Bind.bind, Except.bind, hsrc,
      dictGetD_obj, pyListGet_out images n hout]
  · intro img hlo hneg hget
    refine ⟨⟨i, ((JValue.obj fs).getKey? "name").getD (.str (toString i)),
      img, (JValue.obj fs).getKey? "extensions",
      (JValue.obj fs).getKey? "extras"⟩, ?_, rfl⟩
    simp only [_parse_texture, JValue.dictGetOpt, Bind.bind, Except.bind, hsrc,
      dictGetD_obj, pyListGet_neg images n hlo hneg hget, pure, Except.pure]

/-- Witness for the amended C5 theorem at the concrete index -1 over one image. -/
theorem texture_index_python_semantics_witness :
    ∃ t, _parse_texture [imagePng] 0 (.obj [("source", .intNum (-1))]) = .ok t ∧
      t.image = imagePng :=
  (texture_index_python_semantics [imagePng] 0 [("source", .intNum (-1))]
    (-1) rfl).2 imagePng (by decide) (by decide) rfl

/-- C5, counterexample: a document whose texture declares `source: -1` parses successfully, the texture resolving to the last image, instead of failing hard on the invalid index. -/
theorem negative_texture_index_accepted :
    (GltfData.parse readerNegativeTexture).map
        (fun d => d.textures.map (fun t => t.image.name)) =
      .ok [.str "a.png"] := by
  exact rfl

theorem parse_scene_no_scenes (gltf : JValue)
    (h : gltf.getKey? "scenes" = none) (nodes : List GltfNode) :
    ∀ s, parse_scene gltf nodes ≠ .ok s := by
  intro s hs
  cases gltf with
  | obj fs =>
    simp [parse_scene, JValue.subscript, JValue.dictGet, h, Bind.bind,
      Except.bind] at hs
  | arr items =>
    simp [parse_scene, JValue.subscript, pyListGet, JValue.asIndex?,
      Bind.bind, Except.bind] at hs
  | null => simp [parse_scene, JValue.subscript, Bind.bind, Except.bind] at hs
  | bool b => simp [parse_scene, JValue.subscript, Bind.bind, Except.bind] at hs
  | intNum m => simp [parse_scene, JValue.subscript, Bind.bind, Except.bind] at hs
  | floatNum q => simp [parse_scene, JValue.subscript, Bind.bind, Except.bind] at hs
  | str st => simp [parse_scene, JValue.subscript, Bind.bind, Except.bind] at hs

/-- C9, amended: the `scenes` array is not optional: a document without a `scenes` key can never parse successfully, because the scene-root pass subscripts `gltf['scenes']` unconditionally. -/
theorem parse_requires_scenes_key (gltf : JValue) (bin : Option (List Nat))
    (hasPath : Bool) (b64 rf : String → Except PyError (List Nat))
    (h : gltf.getKey? "scenes" = none) :
    ∀ d, GltfData.parse ⟨gltf, bin, hasPath, b64, rf⟩ ≠ .ok d := by
  intro d hd
  simp only [GltfData.parse, except_bind_ok] at hd
  obtain ⟨imagesJ, -, il, -, images, -, texturesJ, -, tl, -, textures, -,
    materialsOpt, -, materials, -, meshesJ, -, ml, -, meshes, -, nodesJ, -,
    nl, -, nodes1, -, skinsJ, -, sl, -, skins, -, nodes, -, scene, hscene,
    -⟩ := hd
  exact parse_scene_no_scenes gltf h nodes scene hscene

/-- C9, counterexample: the empty document (every optional array omitted, no `scenes`) does not parse; the scene pass raises `KeyError`. -/
theorem parse_fails_without_scenes_at_empty_doc :
    (JValue.obj []).getKey? "scenes" = none ∧
    GltfData.parse readerEmptyDoc = .error .keyError := by
  exact ⟨rfl, rfl⟩

/-- Witness for the amended C9 theorem at the empty document. -/
theorem parse_requires_scenes_key_witness :
    GltfData.parse ⟨.obj [], none, true, noBytes, noBytes⟩ ≠
      .ok ⟨.obj [], none, [], [], [], [], [], [], [], []⟩ :=
  parse_requires_scenes_key (.obj []) none true noBytes noBytes rfl
    ⟨.obj [], none, [], [], [], [], [], [], [], []⟩

theorem CElemType.size_pos (t : CElemType) : 0 < t.size := by
  cases t <;> decide

theorem typeToElementCount_pos (s : String) (n : Nat)
    (h : typeToElementCount s = some n) : 0 < n := by
  simp only [typeToElementCount] at h
  split_ifs at h <;> simp_all <;> omega

theorem get_accessor_type_ec_pos (g : JValue) (et : CElemType) (ec : Nat)
    (h : get_accessor_type g = .ok (et, ec)) : 0 < ec := by
  simp only [get_accessor_type, except_bind_ok] at h
  obtain ⟨code, -, et2, -, tag, -, h⟩ := h
  cases tag with
  | str s =>
    cases hn : typeToElementCount s with
    | none => simp [hn] at h
    | some n =>
      simp only [hn] at h
      rw [show (return (et2, n) : Except PyError (CElemType × Nat)) = .ok (et2, n) from rfl] at h
      cases h
      exact typeToElementCount_pos s ec hn
  | null => cases h
  | bool b => cases h
  | intNum m => cases h
  | floatNum q => cases h
  | arr l => cases h
  | obj fs => cases h

/-- C6, amended: when the resolved buffer-view window holds at least `byteOffset + sizeof(scalar) * components_per_element * count` bytes (with non-negative offset and count), `read_accessor` returns a typed view whose element count equals the accessor's declared count; the invariant does not hold for shorter windows, which silently truncate. -/
theorem read_accessor_count_exact (r : GltfBufferReader)
    (ai accessors acc offJ cntJ bvi : JValue) (et : CElemType) (ec : Nat)
    (off cnt : Int) (w : List Nat)
    (hacc0 : r.gltf.dictGet "accessors" = .ok accessors)
    (hacc : accessors.subscript ai = .ok acc)
    (hoff : acc.dictGetD "byteOffset" (.intNum 0) = .ok offJ)
    (hoffi : offJ.asSliceInt? = some off)
    (hcnt : acc.dictGet "count" = .ok cntJ)
    (hcnti : cntJ.asSliceInt? = some cnt)
    (htyp : get_accessor_type acc = .ok (et, ec))
    (hbv : acc.getKey? "bufferView" = some bvi)
    (hw : r.buffer_view_bytes bvi = .ok w)
    (h0 : 0 ≤ off) (hc0 : 0 ≤ cnt)
    (hlen : off + (et.size : Int) * ec * cnt ≤ (w.length : Int)) :
    ∃ s, r.read_accessor ai = .ok s ∧ s.element_count = ec ∧
      s.itemsize = et.size ∧ s.get_count = cnt.toNat := by
  obtain ⟨cN, rfl⟩ : ∃ n : Nat, cnt = (n : Int) := ⟨cnt.toNat, by omega⟩
  have hlen' : ((et.size * ec * cN : Nat) : Int) = (et.size : Int) * ec * cN := by
    push_cast
    ring
  have hslice : (pySlice w off (off + (et.size : Int) * ec * cN)).length =
      et.size * ec * cN := by
    rw [pySlice_length_of_bounds w off (off + (et.size : Int) * ec * cN) h0
      (by
        have h1 : (0 : Int) ≤ (et.size : Int) * ec * cN := by positivity
        omega)
      (by omega)]
    omega
  have hdvd : et.size ∣ (pySlice w off (off + (et.size : Int) * ec * cN)).length := by
    rw [hslice]
    exact ⟨ec * cN, by ring⟩
  have hec := get_accessor_type_ec_pos acc et ec htyp
  have hsz := CElemType.size_pos et
  refine ⟨⟨chunkScalars et.size (pySlice w off (off + (et.size : Int) * ec * cN)),
    et.size, ec⟩, ?_, rfl, rfl, ?_⟩
  · simp only [GltfBufferReader.read_accessor, hacc0, hacc, hoff, hcnt, htyp,
      hbv, hw, hoffi, hcnti, Bind.bind, Except.bind, memviewCast_dvd _ _ hdvd,
      pure, Except.pure]
  · simp only [GltfAccessorSlice.get_count,
      chunkScalars_length et.size hsz _ hdvd, hslice, Int.toNat_natCast]
    have e1 : et.size * ec * cN = et.size * (ec * cN) := by ring
    rw [e1, Nat.mul_div_cancel_left _ hsz, Nat.mul_div_cancel_left _ hec]

/-- C6, counterexample: an accessor declaring `count: 2` over a buffer view whose underlying buffer holds a single byte yields a typed view with `get_count() = 1` and no error, violating the claimed byte-length invariant. -/
theorem read_accessor_truncates_on_short_source :
    accShortBuffer.getKey? "count" = some (.intNum 2) ∧
    (readerShortBuffer.read_accessor (.intNum 0)).map
        (fun s => (s.get_count, s.element_count, s.itemsize)) =
      .ok (1, 1, 1) := by
  exact ⟨rfl, rfl⟩

/-- Witness for the amended C6 theorem at a concrete two-byte buffer. -/
theorem read_accessor_count_exact_witness :
    ∃ s, readerFullBuffer.read_accessor (.intNum 0) = .ok s ∧
      s.element_count = 1 ∧ s.itemsize = 1 ∧ s.get_count = (2 : Int).toNat :=
  read_accessor_count_exact readerFullBuffer (.intNum 0)
    (.arr [accShortBuffer]) accShortBuffer (.intNum 0) (.intNum 2)
    (.intNum 0) .cByte 1 0 2 [7, 7] rfl rfl rfl rfl rfl rfl rfl rfl rfl
    (by decide) (by decide) (by decide)

/-- C7: a mesh primitive whose JSON has no `material` key is assembled with `GltfMaterial.default()`: sentinel index -1, base color RGBA (1,1,1,1), metallic factor 0, roughness factor 1, emissive factor (0,0,0), alpha mode OPAQUE, alpha cutoff 0.5, and double_sided false. -/
theorem primitive_without_material_gets_default (r : GltfBufferReader)
    (materials : List GltfMaterial) (gp : JValue) (p : GltfPrimitive)
    (hnm : gp.getKey? "material" = none)
    (hok : parse_primitive r materials gp = .ok p) :
    p.material = GltfMaterial.default ∧
    GltfMaterial.default.index = -1 ∧
    GltfMaterial.default.base_color_factor =
      ⟨.intNum 1, .intNum 1, .intNum 1, .intNum 1⟩ ∧
    GltfMaterial.default.metallic_factor = .intNum 0 ∧
    GltfMaterial.default.roughness_factor = .intNum 1 ∧
    GltfMaterial.default.emissive_factor = ⟨.intNum 0, .intNum 0, .intNum 0⟩ ∧
    GltfMaterial.default.alpha_mode = .OPAQUE ∧
    GltfMaterial.default.alpha_cutoff = .floatNum (1 / 2) ∧
    GltfMaterial.default.double_sided = .bool false := by
  refine ⟨?_, rfl, rfl, rfl, rfl, rfl, rfl, rfl, rfl⟩
  simp only [parse_primitive, except_bind_ok] at hok
  obtain ⟨attrs, -, st, -, hok⟩ := hok
  cases hpos : st.positions with
  | none =>
    rw [hpos] at hok
    cases hok
  | some positions =>
    rw [hpos] at hok
    simp only [except_bind_ok] at hok
    obtain ⟨indices, -, material, hmat, hok⟩ := hok
    rw [hnm] at hmat
    simp only [parse_prim_material, except_pure_ok] at hmat
    rw [except_pure_ok] at hok
    subst hmat
    subst hok
    rfl

/-- Witness for the C7 theorem at a concrete primitive with only a POSITION attribute. -/
theorem primitive_without_material_gets_default_witness :
    ∃ p, parse_primitive readerPrimOnly [] primNoMaterial = .ok p ∧
      p.material = GltfMaterial.default :=
  ⟨⟨GltfMaterial.default,
      ⟨[[0, 0, 0, 0], [0, 0, 0, 0], [0, 0, 0, 0]], 4, 3⟩,
      ⟨.posInf, .posInf, .posInf⟩, ⟨.negInf, .negInf, .negInf⟩,
      none, none, none, none, none, none, none, none, none⟩, rfl,
    (primitive_without_material_gets_default readerPrimOnly [] primNoMaterial
      _ rfl rfl).1⟩

theorem pbrStep_preserves_factors (textures : List GltfTexture)
    (st : GltfMaterial) (kk : String) (vv : JValue) (st' : GltfMaterial)
    (hk1 : kk ≠ "metallicFactor") (hk2 : kk ≠ "roughnessFactor")
    (h : pbrStep textures st kk vv = .ok st') :
    st'.metallic_factor = st.metallic_factor ∧
    st'.roughness_factor = st.roughness_factor := by
  unfold pbrStep at h
  split_ifs at h with h1 h2 h3
  · split at h
    · rw [except_bind_ok] at h
      obtain ⟨t, -, h⟩ := h
      rw [except_pure_ok] at h
      subst h
      exact ⟨rfl, rfl⟩
    · cases h
  · rw [except_bind_ok] at h
    obtain ⟨c, -, h⟩ := h
    rw [except_pure_ok] at h
    subst h
    exact ⟨rfl, rfl⟩
  · split at h
    · rw [except_bind_ok] at h
      obtain ⟨t, -, h⟩ := h
      rw [except_pure_ok] at h
      subst h
      exact ⟨rfl, rfl⟩
    · rw [except_pure_ok] at h
      subst h
      exact ⟨rfl, rfl⟩

theorem pbr_fold_preserves_factors (textures : List GltfTexture) :
    ∀ (gs : List (String × JValue)) (st st' : GltfMaterial),
      (∀ q ∈ gs, q.1 ≠ "metallicFactor" ∧ q.1 ≠ "roughnessFactor") →
      gs.foldlM (fun st p => pbrStep textures st p.1 p.2) st = .ok st' →
      st'.metallic_factor = st.metallic_factor ∧
      st'.roughness_factor = st.roughness_factor := by
  intro gs
  induction gs with
  | nil =>
    intro st st' _ h
    rw [List.foldlM_nil, except_pure_ok] at h
    subst h
    exact ⟨rfl, rfl⟩
  | cons q gs ih =>
    intro st st' hq h
    rw [List.foldlM_cons, except_bind_ok] at h
    obtain ⟨st1, hstep, hrest⟩ := h
    have h1 := pbrStep_preserves_factors textures st q.1 q.2 st1
      (hq q (by simp)).1 (hq q (by simp)).2 hstep
    have h2 := ih st1 st' (fun p hp => hq p (by simp [hp])) hrest
    exact ⟨h2.1.trans h1.1, h2.2.trans h1.2⟩

theorem matStep_preserves_factors (textures : List GltfTexture)
    (st : GltfMaterial) (k : String) (v : JValue) (st' : GltfMaterial)
    (hpbr : k = "pbrMetallicRoughness" → ∀ gs, v = .obj gs →
      ∀ p ∈ gs, p.1 ≠ "metallicFactor" ∧ p.1 ≠ "roughnessFactor")
    (h : matStep textures st k v = .ok st') :
    st'.metallic_factor = st.metallic_factor ∧
    st'.roughness_factor = st.roughness_factor := by
  unfold matStep at h
  by_cases e1 : k = "name"
  · rw [if_pos e1] at h
    rw [except_pure_ok] at h
    subst h
    exact ⟨rfl, rfl⟩
  rw [if_neg e1] at h
  by_cases e2 : k = "pbrMetallicRoughness"
  · rw [if_pos e2] at h
    split at h
    · exact pbr_fold_preserves_factors textures _ st st' (hpbr e2 _ rfl) h
    · cases h
  rw [if_neg e2] at h
  by_cases e3 : k = "emissiveTexture"
  · rw [if_pos e3] at h
    split at h
    · rw [except_bind_ok] at h
      obtain ⟨t, -, h⟩ := h
      rw [except_pure_ok] at h
      subst h
      exact ⟨rfl, rfl⟩
    · rw [except_pure_ok] at h
      subst h
      exact ⟨rfl, rfl⟩
  rw [if_neg e3] at h
  by_cases e4 : k = "emissiveFactor"
  · rw [if_pos e4] at h
    rw [except_bind_ok] at h
    obtain ⟨t, -, h⟩ := h
    rw [except_pure_ok] at h
    subst h
    exact ⟨rfl, rfl⟩
  rw [if_neg e4] at h
  by_cases e5 : k = "alphaMode"
  · rw [if_pos e5] at h
    rw [except_bind_ok] at h
    obtain ⟨t, -, h⟩ := h
    rw [except_pure_ok] at h
    subst h
    exact ⟨rfl, rfl⟩
  rw [if_neg e5] at h
  by_cases e6 : k = "alphaCutoff"
  · rw [if_pos e6] at h
    rw [except_pure_ok] at h
    subst h
    exact ⟨rfl, rfl⟩
  rw [if_neg e6] at h
  by_cases e7 : k = "doubleSided"
  · rw [if_pos e7] at h
    rw [except_pure_ok] at h
    subst h
    exact ⟨rfl, rfl⟩
  rw [if_neg e7] at h
  by_cases e8 : k = "normalTexture"
  · rw [if_pos e8] at h
    split at h
    · rw [except_bind_ok] at h
      obtain ⟨t, -, h⟩ := h
      rw [except_pure_ok] at h
      subst h
      exact ⟨rfl, rfl⟩
    · cases h
  rw [if_neg e8] at h
  by_cases e9 : k = "occlusionTexture"
  · rw [if_pos e9] at h
    split at h
    · rw [except_bind_ok] at h
      obtain ⟨t, -, h⟩ := h
      rw [except_pure_ok] at h
      subst h
      exact ⟨rfl, rfl⟩
    · cases h
  rw [if_neg e9] at h
  by_cases e10 : k = "extensions"
  · rw [if_pos e10] at h
    rw [except_pure_ok] at h
    subst h
    exact ⟨rfl, rfl⟩
  rw [if_neg e10] at h
  by_cases e11 : k = "extras"
  · rw [if_pos e11] at h
    rw [except_pure_ok] at h
    subst h
    exact ⟨rfl, rfl⟩
  rw [if_neg e11] at h
  cases h

theorem mat_fold_preserves_factors (textures : List GltfTexture) :
    ∀ (fs : List (String × JValue)) (st st' : GltfMaterial),
      (∀ q ∈ fs, q.1 = "pbrMetallicRoughness" → ∀ gs, q.2 = .obj gs →
        ∀ p ∈ gs, p.1 ≠ "metallicFactor" ∧ p.1 ≠ "roughnessFactor") →
      fs.foldlM (fun st p => matStep textures st p.1 p.2) st = .ok st' →
      st'.metallic_factor = st.metallic_factor ∧
      st'.roughness_factor = st.roughness_factor := by
  intro fs
  induction fs with
  | nil =>
    intro st st' _ h
    rw [List.foldlM_nil, except_pure_ok] at h
    subst h
    exact ⟨rfl, rfl⟩
  | cons q fs ih =>
    intro st st' hq h
    rw [List.foldlM_cons, except_bind_ok] at h
    obtain ⟨st1, hstep, hrest⟩ := h
    have h1 := matStep_preserves_factors textures st q.1 q.2 st1
      (hq q (by simp)) hstep
    have h2 := ih st1 st' (fun p hp => hq p (by simp [hp])) hrest
    exact ⟨h2.1.trans h1.1, h2.2.trans h1.2⟩

/-- C10: a declared material whose JSON omits `metallicFactor` and `roughnessFactor` (or the whole `pbrMetallicRoughness` object) gets the float 0.0 for both factors, so its roughness default differs from the default material's roughness of 1. -/
theorem declared_material_factor_defaults (textures : List GltfTexture)
    (i : Nat) (fs : List (String × JValue)) (m : GltfMaterial)
    (hpbr : ∀ q ∈ fs, q.1 = "pbrMetallicRoughness" → ∀ gs, q.2 = .obj gs →
      ∀ p ∈ gs, p.1 ≠ "metallicFactor" ∧ p.1 ≠ "roughnessFactor")
    (hok : _parse_material textures i (.obj fs) = .ok m) :
    m.metallic_factor = .floatNum 0 ∧ m.roughness_factor = .floatNum 0 ∧
    GltfMaterial.default.roughness_factor = .intNum 1 ∧
    m.roughness_factor ≠ GltfMaterial.default.roughness_factor := by
  have hf := mat_fold_preserves_factors textures fs (matInit i) m hpbr hok
  refine ⟨hf.1, hf.2, rfl, ?_⟩
  rw [hf.2]
  intro hc
  cases hc

/-- Witness for the C10 theorem at a material declaring only a name. -/
theorem declared_material_factor_defaults_witness :
    ∃ m, _parse_material [] 0 (.obj [("name", .str "Red")]) = .ok m ∧
      m.metallic_factor = .floatNum 0 ∧ m.roughness_factor = .floatNum 0 ∧
      m.roughness_factor ≠ GltfMaterial.default.roughness_factor := by
  have hpbr : ∀ q ∈ [("name", JValue.str "Red")],
      q.1 = "pbrMetallicRoughness" → ∀ gs, q.2 = .obj gs →
      ∀ p ∈ gs, p.1 ≠ "metallicFactor" ∧ p.1 ≠ "roughnessFactor" := by
    intro q hq hk
    simp at hq
    subst hq
    exact absurd hk (by decide)
  have h := declared_material_factor_defaults [] 0 [("name", .str "Red")]
    matRed hpbr rfl
  exact ⟨matRed, rfl, h.1, h.2.1, h.2.2.2⟩

theorem except_ok_bind {α β : Type} (a : α) (f : α → Except PyError β) :
    ((Except.ok a : Except PyError α) >>= f) = f a := rfl

theorem getKey?_isObj {v : JValue} {k : String} {x : JValue}
    (h : v.getKey? k = some x) : ∃ fs, v = .obj fs := by
  cases v with
  | obj fs => exact ⟨fs, rfl⟩
  | null => simp [JValue.getKey?] at h
  | bool b => simp [JValue.getKey?] at h
  | intNum n => simp [JValue.getKey?] at h
  | floatNum q => simp [JValue.getKey?] at h
  | str s => simp [JValue.getKey?] at h
  | arr l => simp [JValue.getKey?] at h

theorem dictGetD_of_getKey? {v : JValue} {k : String} {x : JValue}
    (h : v.getKey? k = some x) (dflt : JValue) :
    v.dictGetD k dflt = .ok x := by
  obtain ⟨fs, rfl⟩ := getKey?_isObj h
  simp [JValue.dictGetD, h]

theorem mapEnumM_length {α : Type} (f : Nat → JValue → Except PyError α) :
    ∀ (xs : List JValue) (s : Nat) (ys : List α),
      mapEnumM f s xs = .ok ys → ys.length = xs.length := by
  intro xs
  induction xs with
  | nil =>
    intro s ys h
    cases h
    rfl
  | cons x xs ih =>
    intro s ys h
    simp only [mapEnumM, except_bind_ok, except_pure_ok] at h
    obtain ⟨a, -, rest, hrest, hy⟩ := h
    subst hy
    simp [ih (s + 1) rest hrest]

theorem mapEnumM_get? {α : Type} (f : Nat → JValue → Except PyError α) :
    ∀ (xs : List JValue) (s : Nat) (ys : List α), mapEnumM f s xs = .ok ys →
      ∀ (j : Nat) (x : JValue), xs.get? j = some x →
        ∃ y, ys.get? j = some y ∧ f (s + j) x = .ok y := by
  intro xs
  induction xs with
  | nil =>
    intro s ys h j x hj
    simp at hj
  | cons x xs ih =>
    intro s ys h j x0 hj
    simp only [mapEnumM, except_bind_ok, except_pure_ok] at h
    obtain ⟨a, ha, rest, hrest, hy⟩ := h
    subst hy
    cases j with
    | zero =>
      simp only [List.get?] at hj
      cases hj
      exact ⟨a, rfl, by simpa using ha⟩
    | succ j' =>
      simp only [List.get?] at hj
      obtain ⟨y, hy, hf⟩ := ih (s + 1) rest hrest j' x0 hj
      refine ⟨y, hy, ?_⟩
      have he : s + (j' + 1) = (s + 1) + j' := by omega
      rw [he]
      exact hf

theorem nodeStep_children_skin (meshes : List GltfMesh) (st : GltfNode)
    (k : String) (v : JValue) (st' : GltfNode)
    (h : nodeStep meshes st k v = .ok st') :
    st'.children = st.children ∧ st'.skin = st.skin := by
  unfold nodeStep at h
  by_cases e1 : k = "name"
  · rw [if_pos e1, except_pure_ok] at h
    subst h
    exact ⟨rfl, rfl⟩
  rw [if_neg e1] at h
  by_cases e2 : k = "mesh"
  · rw [if_pos e2] at h
    rw [except_bind_ok] at h
    obtain ⟨t, -, h⟩ := h
    rw [except_pure_ok] at h
    subst h
    exact ⟨rfl, rfl⟩
  rw [if_neg e2] at h
  by_cases e3 : k = "children"
  · rw [if_pos e3, except_pure_ok] at h
    subst h
    exact ⟨rfl, rfl⟩
  rw [if_neg e3] at h
  by_cases e4 : k = "matrix"
  · rw [if_pos e4, except_pure_ok] at h
    subst h
    exact ⟨rfl, rfl⟩
  rw [if_neg e4] at h
  by_cases e5 : k = "translation"
  · rw [if_pos e5] at h
    rw [except_bind_ok] at h
    obtain ⟨t, -, h⟩ := h
    rw [except_pure_ok] at h
    subst h
    exact ⟨rfl, rfl⟩
  rw [if_neg e5] at h
  by_cases e6 : k = "rotation"
  · rw [if_pos e6] at h
    rw [except_bind_ok] at h
    obtain ⟨t, -, h⟩ := h
    rw [except_pure_ok] at h
    subst h
    exact ⟨rfl, rfl⟩
  rw [if_neg e6] at h
  by_cases e7 : k = "scale"
  · rw [if_pos e7] at h
    rw [except_bind_ok] at h
    obtain ⟨t, -, h⟩ := h
    rw [except_pure_ok] at h
    subst h
    exact ⟨rfl, rfl⟩
  rw [if_neg e7] at h
  by_cases e8 : k = "skin"
  · rw [if_pos e8, except_pure_ok] at h
    subst h
    exact ⟨rfl, rfl⟩
  rw [if_neg e8] at h
  by_cases e9 : k = "camera"
  · rw [if_pos e9, except_pure_ok] at h
    subst h
    exact ⟨rfl, rfl⟩
  rw [if_neg e9] at h
  by_cases e10 : k = "extensions"
  · rw [if_pos e10, except_pure_ok] at h
    subst h
    exact ⟨rfl, rfl⟩
  rw [if_neg e10] at h
  by_cases e11 : k = "extras"
  · rw [if_pos e11, except_pure_ok] at h
    subst h
    exact ⟨rfl, rfl⟩
  rw [if_neg e11] at h
  cases h

theorem node_fold_children_skin (meshes : List GltfMesh) :
    ∀ (fs : List (String × JValue)) (st st' : GltfNode),
      fs.foldlM (fun st p => nodeStep meshes st p.1 p.2) st = .ok st' →
      st'.children = st.children ∧ st'.skin = st.skin := by
  intro fs
  induction fs with
  | nil =>
    intro st st' h
    rw [List.foldlM_nil, except_pure_ok] at h
    subst h
    exact ⟨rfl, rfl⟩
  | cons q fs ih =>
    intro st st' h
    rw [List.foldlM_cons, except_bind_ok] at h
    obtain ⟨st1, hstep, hrest⟩ := h
    have h1 := nodeStep_children_skin meshes st q.1 q.2 st1 hstep
    have h2 := ih st1 st' hrest
    exact ⟨h2.1.trans h1.1, h2.2.trans h1.2⟩

theorem parse_node_fields (meshes : List GltfMesh) (i : Nat) (g : JValue)
    (nd : GltfNode) (h : _parse_node meshes i g = .ok nd) :
    nd.children = [] ∧ nd.skin = none := by
  cases g with
  | obj fs => exact node_fold_children_skin meshes fs _ nd h
  | null => cases h
  | bool b => cases h
  | intNum n => cases h
  | floatNum q => cases h
  | str s => cases h
  | arr l => cases h

theorem pass2_child_append_set (i : Nat) (ns : List GltfNode) (k : Nat)
    (nd : GltfNode) (hnd : ns.get? i = some nd) (hk : k < ns.length) :
    pass2_child_append i ns (natJ k) =
      .ok (ns.set i { nd with children := nd.children ++ [k] }) := by
  unfold pass2_child_append natJ
  rw [pyGetIdx_nat hnd, except_ok_bind]
  have hlook : pyListGetNorm ns (.intNum (Int.ofNat k)) = .ok k :=
    pyListGetNorm_nat ns k hk
  rw [hlook, except_ok_bind]
  rfl

theorem pass2_child_append_local (i : Nat) :
    ∀ (cs : List JValue) (ns ns' : List GltfNode),
      cs.foldlM (pass2_child_append i) ns = .ok ns' →
      ns'.length = ns.length ∧ ∀ j, j ≠ i → ns'.get? j = ns.get? j := by
  intro cs
  induction cs with
  | nil =>
    intro ns ns' h
    rw [List.foldlM_nil, except_pure_ok] at h
    subst h
    exact ⟨rfl, fun j _ => rfl⟩
  | cons c cs ih =>
    intro ns ns' h
    rw [List.foldlM_cons, except_bind_ok] at h
    obtain ⟨ns1, happ, hrest⟩ := h
    unfold pass2_child_append at happ
    rw [except_bind_ok] at happ
    obtain ⟨nd, -, happ⟩ := happ
    rw [except_bind_ok] at happ
    obtain ⟨ci, -, happ⟩ := happ
    rw [except_pure_ok] at happ
    subst happ
    obtain ⟨hlen, hother⟩ := ih _ ns' hrest
    refine ⟨hlen.trans (List.length_set ns i _), fun j hj => ?_⟩
    exact (hother j hj).trans (List.get?_set_ne _ ns (fun he => hj he.symm))

theorem pass2_children_fold (i : Nat) :
    ∀ (ks : List Nat) (ns : List GltfNode) (nd : GltfNode),
      ns.get? i = some nd → (∀ k ∈ ks, k < ns.length) →
      ∃ ns', (ks.map natJ).foldlM
          (pass2_child_append i) ns = .ok ns' ∧
        ns'.get? i = some { nd with children := nd.children ++ ks } ∧
        ns'.length = ns.length ∧ ∀ j, j ≠ i → ns'.get? j = ns.get? j := by
  intro ks
  induction ks with
  | nil =>
    intro ns nd hnd hb
    refine ⟨ns, by rw [List.map_nil, List.foldlM_nil, except_pure_ok], ?_, rfl,
      fun j _ => rfl⟩
    simpa using hnd
  | cons k ks ih =>
    intro ns nd hnd hb
    have hik : i < ns.length := (List.get?_eq_some.mp hnd).1
    have hk : k < ns.length := hb k (by simp)
    have hset := pass2_child_append_set i ns k nd hnd hk
    have hnd1 : (ns.set i { nd with children := nd.children ++ [k] }).get? i =
        some { nd with children := nd.children ++ [k] } :=
      List.get?_set_eq_of_lt _ hik
    have hb1 : ∀ k' ∈ ks, k' < (ns.set i { nd with children := nd.children ++ [k] }).length := by
      intro k' hk'
      rw [List.length_set]
      exact hb k' (by simp [hk'])
    obtain ⟨ns', hfold, hget, hlen, hother⟩ := ih _ _ hnd1 hb1
    refine ⟨ns', ?_, ?_, ?_, ?_⟩
    · rw [List.map_cons, List.foldlM_cons, hset, except_ok_bind]
      exact hfold
    · rw [hget]
      simp [List.append_assoc]
    · rw [hlen, List.length_set]
    · intro j hj
      exact (hother j hj).trans (List.get?_set_ne _ ns (fun he => hj he.symm))

theorem nodes_pass2_step_spec (skins : List GltfSkin) (ns : List GltfNode)
    (i : Nat) (gfs : List (String × JValue)) (nd : GltfNode) (ks : List Nat)
    (hnd : ns.get? i = some nd)
    (hcs : (JValue.obj gfs).getKey? "children" = some (.arr (ks.map natJ)))
    (hb : ∀ k ∈ ks, k < ns.length) :
    ((JValue.obj gfs).getKey? "skin" = none →
      ∃ ns', nodes_pass2_step skins ns i (.obj gfs) = .ok ns' ∧
        ns'.get? i = some { nd with children := nd.children ++ ks } ∧
        ns'.length = ns.length ∧ ∀ j, j ≠ i → ns'.get? j = ns.get? j) ∧
    (∀ sk : Nat, (JValue.obj gfs).getKey? "skin" = some (natJ sk) →
      sk < skins.length →
      ∃ ns', nodes_pass2_step skins ns i (.obj gfs) = .ok ns' ∧
        ns'.get? i =
          some { nd with children := nd.children ++ ks, skin := some sk } ∧
        ns'.length = ns.length ∧ ∀ j, j ≠ i → ns'.get? j = ns.get? j) := by
  obtain ⟨ns1, hfold, hget, hlen, hother⟩ := pass2_children_fold i ks ns nd hnd hb
  have hchildren : pass2_children ns i (some (.arr (ks.map natJ))) = .ok ns1 := by
    simp only [pass2_children]
    exact hfold
  have hstep : nodes_pass2_step skins ns i (.obj gfs) =
      pass2_skin skins ns1 i ((JValue.obj gfs).getKey? "skin") := by
    unfold nodes_pass2_step
    have h1 : (JValue.obj gfs).dictGetOpt "children" =
        .ok (some (.arr (ks.map natJ))) := by
      simp [JValue.dictGetOpt, hcs]
    rw [h1, except_ok_bind, hchildren, except_ok_bind]
  constructor
  · intro hskin
    refine ⟨ns1, ?_, hget, hlen, hother⟩
    rw [hstep, hskin]
    rfl
  · intro sk hskin hsk
    have hset : pass2_skin skins ns1 i (some (natJ sk)) =
        .ok (ns1.set i
          { nd with children := nd.children ++ ks, skin := some sk }) := by
      have e1 : pass2_skin skins ns1 i (some (natJ sk)) =
          (pyListGetNorm skins (.intNum ((sk : Nat) : Int)) >>= fun si =>
            pyGetIdx ns1 (i : Int) >>= fun nd2 =>
            pure (ns1.set i { nd2 with skin := some si })) := rfl
      rw [e1, pyListGetNorm_nat skins sk hsk, except_ok_bind,
        pyGetIdx_nat hget, except_ok_bind]
      rfl
    have hi1 : i < ns1.length := by
      rw [hlen]
      exact (List.get?_eq_some.mp hnd).1
    refine ⟨_, by rw [hstep, hskin, hset], ?_, ?_, ?_⟩
    · rw [List.get?_set_eq_of_lt _ hi1]
    · rw [List.length_set, hlen]
    · intro j hj
      exact (List.get?_set_ne _ ns1 (fun he => hj he.symm)).trans (hother j hj)

theorem nodes_pass2_step_local (skins : List GltfSkin) (ns : List GltfNode)
    (i : Nat) (gn : JValue) (ns' : List GltfNode)
    (h : nodes_pass2_step skins ns i gn = .ok ns') :
    ns'.length = ns.length ∧ ∀ j, j ≠ i → ns'.get? j = ns.get? j := by
  unfold nodes_pass2_step at h
  rw [except_bind_ok] at h
  obtain ⟨copt, -, h⟩ := h
  rw [except_bind_ok] at h
  obtain ⟨ns1, hch, hsk⟩ := h
  have l1 : ns1.length = ns.length ∧ ∀ j, j ≠ i → ns1.get? j = ns.get? j := by
    unfold pass2_children at hch
    split at hch
    · exact pass2_child_append_local i _ ns ns1 hch
    · rw [except_pure_ok] at hch
      subst hch
      exact ⟨rfl, fun j _ => rfl⟩
  have l2 : ns'.length = ns1.length ∧ ∀ j, j ≠ i → ns'.get? j = ns1.get? j := by
    unfold pass2_skin at hsk
    split at hsk
    · rw [except_bind_ok] at hsk
      obtain ⟨si, -, hsk⟩ := hsk
      rw [except_bind_ok] at hsk
      obtain ⟨nd1, -, hsk⟩ := hsk
      rw [except_pure_ok] at hsk
      subst hsk
      exact ⟨List.length_set ns1 i _,
        fun j hj => List.get?_set_ne _ ns1 (fun he => hj he.symm)⟩
    · rw [except_pure_ok] at hsk
      subst hsk
      exact ⟨rfl, fun j _ => rfl⟩
  exact ⟨l2.1.trans l1.1, fun j hj => (l2.2 j hj).trans (l1.2 j hj)⟩

theorem pass2_fold_below (skins : List GltfSkin) :
    ∀ (xs : List JValue) (s : Nat) (ns ns' : List GltfNode),
      foldEnumM (nodes_pass2_step skins) s ns xs = .ok ns' →
      ns'.length = ns.length ∧ ∀ j, j < s → ns'.get? j = ns.get? j := by
  intro xs
  induction xs with
  | nil =>
    intro s ns ns' h
    cases h
    exact ⟨rfl, fun j _ => rfl⟩
  | cons x xs ih =>
    intro s ns ns' h
    simp only [foldEnumM, except_bind_ok] at h
    obtain ⟨ns1, hstep, hrest⟩ := h
    have l1 := nodes_pass2_step_local skins ns s x ns1 hstep
    have l2 := ih (s + 1) ns1 ns' hrest
    refine ⟨l2.1.trans l1.1, fun j hj => ?_⟩
    exact (l2.2 j (by omega)).trans (l1.2 j (by omega))

theorem pass2_fold_at (skins : List GltfSkin) :
    ∀ (xs : List JValue) (s : Nat) (ns ns' : List GltfNode),
      foldEnumM (nodes_pass2_step skins) s ns xs = .ok ns' →
      ∀ (i : Nat) (gfs : List (String × JValue)),
        xs.get? i = some (.obj gfs) →
        ∀ (nd : GltfNode) (ks : List Nat),
          ns.get? (s + i) = some nd →
          (JValue.obj gfs).getKey? "children" = some (.arr (ks.map natJ)) →
          (∀ k ∈ ks, k < ns.length) →
          ns'.length = ns.length ∧
          ((JValue.obj gfs).getKey? "skin" = none →
            ns'.get? (s + i) = some { nd with children := nd.children ++ ks }) ∧
          (∀ sk : Nat, (JValue.obj gfs).getKey? "skin" = some (natJ sk) →
            sk < skins.length →
            ns'.get? (s + i) =
              some { nd with children := nd.children ++ ks, skin := some sk }) := by
  intro xs
  induction xs with
  | nil =>
    intro s ns ns' h i gfs hgn
    simp at hgn
  | cons x xs ih =>
    intro s ns ns' h i gfs hgn nd ks hnd hcs hb
    simp only [foldEnumM, except_bind_ok] at h
    obtain ⟨ns1, hstep, hrest⟩ := h
    cases i with
    | zero =>
      simp only [List.get?] at hgn
      cases hgn
      have hbelow := pass2_fold_below skins xs (s + 1) ns1 ns' hrest
      have hspec := nodes_pass2_step_spec skins ns s gfs nd ks
        (by simpa using hnd) hcs hb
      refine ⟨?_, ?_, ?_⟩
      · exact hbelow.1.trans (nodes_pass2_step_local skins ns s _ ns1 hstep).1
      · intro hskin
        obtain ⟨ns'', hstep'', hget, -, -⟩ := hspec.1 hskin
        have heq : ns1 = ns'' := by
          rw [hstep] at hstep''
          cases hstep''
          rfl
        subst heq
        rw [Nat.add_zero, hbelow.2 s (Nat.lt_succ_self s)]
        exact hget
      · intro sk hskin hsk
        obtain ⟨ns'', hstep'', hget, -, -⟩ := hspec.2 sk hskin hsk
        have heq : ns1 = ns'' := by
          rw [hstep] at hstep''
          cases hstep''
          rfl
        subst heq
        rw [Nat.add_zero, hbelow.2 s (Nat.lt_succ_self s)]
        exact hget
    | succ ix =>
      simp only [List.get?] at hgn
      have hloc := nodes_pass2_step_local skins ns s x ns1 hstep
      have hnd1 : ns1.get? (s + (ix + 1)) = some nd := by
        rw [hloc.2 _ (by omega)]
        exact hnd
      have hb1 : ∀ k ∈ ks, k < ns1.length := fun k hk => by
        rw [hloc.1]
        exact hb k hk
      have harith : (s + 1) + ix = s + (ix + 1) := by omega
      have hrec := ih (s + 1) ns1 ns' hrest ix gfs hgn nd ks
        (by rw [harith]; exact hnd1) hcs hb1
      refine ⟨hrec.1.trans hloc.1, ?_, ?_⟩
      · intro hskin
        have hr := hrec.2.1 hskin
        rw [harith] at hr
        exact hr
      · intro sk hskin hsk
        have hr := hrec.2.2 sk hskin hsk
        rw [harith] at hr
        exact hr

/-- C8: after a successful parse, a node whose JSON `children` list is [c1..ck] (all in range) has exactly the assembled nodes c1..ck as its children, in order and with no placeholder entries, even when a child index exceeds the node's own index; a declared in-range `skin` index likewise resolves to the assembled skin.  Resolved references are the normalized arena positions the model stores in place of Python's direct object references. -/
theorem nodes_backpatch_resolves_references (r : GltfBufferReader)
    (d : GltfData) (hp : GltfData.parse r = .ok d)
    (nl : List JValue) (hnl : r.gltf.getKey? "nodes" = some (.arr nl))
    (i : Nat) (gn : JValue) (hgn : nl.get? i = some gn)
    (ks : List Nat)
    (hcs : gn.getKey? "children" = some (.arr (ks.map natJ)))
    (hbound : ∀ k ∈ ks, k < nl.length) :
    (∀ k ∈ ks, k < d.nodes.length) ∧
    (gn.getKey? "skin" = none →
      ∃ nd, d.nodes.get? i = some nd ∧ nd.children = ks ∧ nd.skin = none) ∧
    (∀ sk : Nat, gn.getKey? "skin" = some (natJ sk) → sk < d.skins.length →
      ∃ nd, d.nodes.get? i = some nd ∧ nd.children = ks ∧
        nd.skin = some sk) := by
  obtain ⟨gfs, rfl⟩ := getKey?_isObj hcs
  simp only [GltfData.parse, except_bind_ok, except_pure_ok] at hp
  obtain ⟨imagesJ, -, il, -, images, -, texturesJ, -, tl, -, textures, -,
    materialsOpt, -, materials, -, meshesJ, -, ml, -, meshes, -,
    nodesJ, hnodesJ, nl2, hnl2, nodes1, hnodes1, skinsJ, -, sl, -,
    skins, -, nodes2, hpass2, scene, -, animationsJ, -, al, -,
    animations, -, hd⟩ := hp
  rw [dictGetD_of_getKey? hnl (.arr [])] at hnodesJ
  cases hnodesJ
  rw [show pyIter (.arr nl) = .ok nl from rfl] at hnl2
  cases hnl2
  have hlen1 : nodes1.length = nl.length :=
    mapEnumM_length _ nl 0 nodes1 hnodes1
  obtain ⟨nd0, hnd0, hpn⟩ := mapEnumM_get? _ nl 0 nodes1 hnodes1 i _ hgn
  have hfields := parse_node_fields meshes (0 + i) _ nd0 hpn
  simp only [nodes_pass2, except_bind_ok] at hpass2
  obtain ⟨nodesJ2, hnodesJ2, nl3, hnl3, hfold⟩ := hpass2
  rw [dictGetD_of_getKey? hnl (.arr [])] at hnodesJ2
  cases hnodesJ2
  rw [show pyIter (.arr nl) = .ok nl from rfl] at hnl3
  cases hnl3
  have hnd0' : nodes1.get? (0 + i) = some nd0 := by simpa using hnd0
  have hb1 : ∀ k ∈ ks, k < nodes1.length := by
    intro k hk
    rw [hlen1]
    exact hbound k hk
  have hmain := pass2_fold_at skins nl 0 nodes1 nodes2 hfold i gfs hgn nd0 ks
    hnd0' hcs hb1
  subst hd
  refine ⟨?_, ?_, ?_⟩
  · intro k hk
    show k < nodes2.length
    rw [hmain.1, hlen1]
    exact hbound k hk
  · intro hskin
    have hg := hmain.2.1 hskin
    rw [Nat.zero_add] at hg
    refine ⟨_, hg, ?_, hfields.2⟩
    show nd0.children ++ ks = ks
    rw [hfields.1]
    rfl
  · intro sk hskin hsk
    have hg := hmain.2.2 sk hskin hsk
    rw [Nat.zero_add] at hg
    refine ⟨_, hg, ?_, rfl⟩
    show nd0.children ++ ks = ks
    rw [hfields.1]
    rfl

/-- Witness for the C8 theorem: node 0 referencing the higher-indexed node 1 as child and skin 0 resolves to exactly those references. -/
theorem nodes_backpatch_resolves_references_witness :
    ∃ nd, dTwoNodes.nodes.get? 0 = some nd ∧ nd.children = [1] ∧
      nd.skin = some 0 := by
  have h := nodes_backpatch_resolves_references readerTwoNodes dTwoNodes rfl
    [gnTwoNodes, .obj []] rfl 0 gnTwoNodes rfl [1] rfl (by decide)
  exact h.2.2 0 rfl (by decide)
